import Mathlib

/-!
# The `compile` entry point of the libsass Python binding (`sass.c`)

A shallow embedding of `PySass_compile` (sass.c, lines 39-286) and of the
style table `PySass_output_style_enum` (lines 24-33), followed by theorems
about them.

Conventions of the embedding.

* A `char *` value is modelled by the bytes of the buffer it points to, the
  final terminator left out (`CBuf`).  The C string functions the source calls
  (`strncmp`, `strncpy`) are modelled with their behaviour at a NUL byte.
* Python objects are modelled by `PyObj`; `NULL` object pointers by `none`.
* What the call does to the outside world (engine contexts, engine entry
  points, the joined include-path buffer) is recorded, in order, in a trace of
  `Event`s.
* `Py_ssize_t` and `int` values are exact integers.
-/

namespace Sass

/-! ## Python objects -/

/-- The bytes of a C buffer, its final terminator left out. -/
abbrev CBuf := List Char

/-- The NUL byte. -/
def NUL : Char := Char.ofNat 0

/-- The `:` byte, the glue character of line 147. -/
def COLON : Char := ':'

/-- The Python values the function can tell apart: `Py_None`, a string
(`PyBytes`), an integer (standing for every object that is neither a string
nor a sequence) and a list or tuple. -/
inductive PyObj where
  | none
  | bytes (b : CBuf)
  | int (n : Int)
  | seq (items : List PyObj)

/-- `PyBytes_Check`. -/
def PyBytes_Check : PyObj → Bool
  | .bytes _ => true
  | _ => false

/-- `PySequence_Check`: strings, lists and tuples carry the sequence protocol. -/
def PySequence_Check : PyObj → Bool
  | .bytes _ => true
  | .seq _ => true
  | _ => false

/-- `PySequence_Size` of an object that passes `PySequence_Check`. -/
def PySequence_Size : PyObj → Nat
  | .bytes b => b.length
  | .seq items => items.length
  | _ => 0

/-- `PySequence_GetItem`.  An element of a string is a one-byte string under
Python 2 and an integer under Python 3 (`PY_MAJOR_VERSION`, lines 6-21); `none`
is the `NULL` of a failed lookup. -/
def PySequence_GetItem (PY_MAJOR_VERSION : Nat) : PyObj → Nat → Option PyObj
  | .bytes b, i =>
      match b.get? i with
      | some c => if PY_MAJOR_VERSION ≥ 3 then some (.int c.toNat) else some (.bytes [c])
      | none => none
  | .seq items, i => items.get? i
  | _, _ => none

/-- `PyBytes_Size` of a string. -/
def PyBytes_Size : PyObj → Nat
  | .bytes b => b.length
  | _ => 0

/-- `PyBytes_AsString`: the buffer of a string, `NULL` (with a `TypeError` set)
for any other object. -/
def PyBytes_AsString : PyObj → Option CBuf
  | .bytes b => some b
  | _ => none

/-- `PyDict_GetItemString` on the keyword dictionary: `none` is `NULL`, the
key is absent. -/
def PyDict_GetItemString (kwds : List (String × PyObj)) (key : String) : Option PyObj :=
  kwds.lookup key

/-! ## C string functions -/

/-- `strncmp(a, b, n)` on NUL-terminated buffers: compares at most `n` bytes and
stops at a terminator; reading past the modelled bytes reads the terminator. -/
def strncmp : CBuf → CBuf → Nat → Int
  | _, _, 0 => 0
  | a, b, n + 1 =>
      let ca := a.headD NUL
      let cb := b.headD NUL
      if ca ≠ cb then (ca.toNat : Int) - (cb.toNat : Int)
      else if ca = NUL then 0
      else strncmp a.tail b.tail n

/-- The `n` bytes `strncpy(dst, src, n)` writes: the bytes of `src` up to its
first terminator, then NUL padding. -/
def strncpy : CBuf → Nat → List Char
  | _, 0 => []
  | [], n + 1 => NUL :: strncpy [] n
  | c :: cs, n + 1 => if c = NUL then NUL :: strncpy [] n else c :: strncpy cs n

/-! ## The style table -/

/-- Modelled from the spec: the constants `SASS_STYLE_*` of `sass_interface.h`,
which is not among the sources; the spec gives the four codes as an
enumeration `Nested | Expanded | Compact | Compressed`. -/
inductive OutputStyle where
  | SASS_STYLE_NESTED
  | SASS_STYLE_EXPANDED
  | SASS_STYLE_COMPACT
  | SASS_STYLE_COMPRESSED
  deriving DecidableEq, Repr

open OutputStyle

/-- The table `PySass_output_style_enum` (lines 24-33); the closing `{NULL}`
entry is the end of the list. -/
def PySass_output_style_enum : List (CBuf × OutputStyle) :=
  [ ("nested".toList, SASS_STYLE_NESTED),
    ("expanded".toList, SASS_STYLE_EXPANDED),
    ("compact".toList, SASS_STYLE_COMPACT),
    ("compressed".toList, SASS_STYLE_COMPRESSED) ]

/-- The loop of lines 95-102 from index `i` on, over the entries not yet
visited: the index at which it stops and the value assigned to
`output_style_v`, if any. -/
def style_loop (s : CBuf) (item_size : Nat) : List (CBuf × OutputStyle) → Nat → Nat × Option OutputStyle
  | [], i => (i, none)
  | (label, value) :: rest, i =>
      if strncmp s label item_size = 0 then (i, some value)
      else style_loop s item_size rest (i + 1)

/-! ## The engine and the environment -/

/-- Modelled from the spec: the `options` member of the three engine contexts
of `sass_interface.h` (not among the sources), `(style_code,
joined_include_paths, image_path)`. -/
structure sass_options where
  output_style : OutputStyle
  include_paths : CBuf
  image_path : CBuf

/-- Modelled from the spec: the input members of `struct sass_context`. -/
structure sass_context where
  source_string : CBuf
  options : sass_options

/-- Modelled from the spec: the input members of `struct sass_file_context`. -/
structure sass_file_context where
  input_path : CBuf
  options : sass_options

/-- Modelled from the spec: the input members of `struct sass_folder_context`.
A path is `none` when the source stores a `NULL` pointer in it. -/
structure sass_folder_context where
  search_path : Option CBuf
  output_path : Option CBuf
  options : sass_options

/-- Modelled from the spec: the members an engine entry point writes in a
string or file context, `(status, output_text | error_message)`. -/
structure EngineResult where
  error_status : Int
  error_message : CBuf
  output_string : CBuf

/-- Modelled from the spec: the members the folder entry point writes,
`(status, error_message)`. -/
structure FolderResult where
  error_status : Int
  error_message : CBuf

/-- Everything outside `sass.c` that the call consults.  The three entry
points are modelled from the spec, the engine being an external collaborator. -/
structure Env where
  /-- `PY_MAJOR_VERSION` of the interpreter the module is built for. -/
  PY_MAJOR_VERSION : Nat
  /-- Whether `access(path, R_OK)` succeeds, that is does not return a negative value. -/
  access_R_OK : CBuf → Bool
  sass_compile : sass_context → EngineResult
  sass_compile_file : sass_file_context → EngineResult
  sass_compile_folder : sass_folder_context → FolderResult

/-! ## Errors, events and results -/

/-- The exception classes the function raises. -/
inductive PyExc where
  | PyExc_TypeError
  | PyExc_ValueError
  | PyExc_IOError
  | PyExc_RuntimeError
  | PySass_CompileError
  deriving DecidableEq, Repr

open PyExc

/-- The message of a raised exception, as the call that raises it gives it. -/
inductive ErrText where
  /-- `PyErr_SetString` with a literal. -/
  | text (s : String)
  /-- `PyErr_SetString` with a `char *` written by the engine. -/
  | buffer (m : CBuf)
  /-- `PyErr_Format` with one `%zd` argument. -/
  | format_zd (fmt : String) (i : Nat)
  /-- `PyErr_Format` with one `%s` argument. -/
  | format_s (fmt : String) (p : CBuf)
  /-- The message the Python API itself writes when one of its calls fails. -/
  | api
  deriving DecidableEq, Repr

/-- The error indicator: an exception class and its message. -/
structure PyErr where
  exc : PyExc
  msg : ErrText
  deriving DecidableEq, Repr

/-- The member of the `context` union in use (lines 48-52). -/
inductive Mode where
  | string
  | filename
  | dirname
  deriving DecidableEq, Repr

/-- Where a `char *` points: a literal of the program, the buffer of a Python
object, or a block obtained from `malloc`. -/
inductive Storage where
  | literal
  | object
  | heap
  deriving DecidableEq, Repr

/-- What the call does to the outside world. -/
inductive Event where
  /-- `sass_new_context`, `sass_new_file_context`, `sass_new_folder_context`. -/
  | new_context (m : Mode)
  /-- `sass_compile` on the string context. -/
  | compile_string (ctx : sass_context)
  /-- `sass_compile_file` on the file context. -/
  | compile_file (ctx : sass_file_context)
  /-- `sass_compile_folder` on the folder context. -/
  | compile_folder (ctx : sass_folder_context)
  /-- `sass_free_context`, `sass_free_file_context`, `sass_free_folder_context`. -/
  | free_context (m : Mode)
  /-- `malloc` of `size` bytes for `include_paths_v` (line 142). -/
  | malloc (size : Nat)
  /-- `free(include_paths_v)` (line 283), with where the pointer points. -/
  | free (s : Storage)

/-- The ways the function leaves defined behaviour. -/
inductive Undefined where
  /-- `i` is read at line 104 without having been assigned. -/
  | uninitialised_i
  /-- `output_style_v` is read without having been assigned. -/
  | uninitialised_output_style_v
  /-- `result` is returned at line 285 without having been assigned. -/
  | uninitialised_result
  /-- A write outside the block allocated at line 142, or a read of a byte of
  it that was never written. -/
  | buffer
  /-- `free` is called at line 283 on a pointer that `malloc` did not return. -/
  | invalid_free
  deriving DecidableEq, Repr

/-- How the call ends: it returns `result` (`none` is `NULL`) with the error
indicator `err`, or its behaviour is undefined. -/
inductive Ret where
  | returned (result : Option PyObj) (err : Option PyErr)
  | undefined (why : Undefined)

/-- One call: the events in the order they happen, and how the call ends.  A
call whose behaviour is undefined keeps the events that came before. -/
structure Run where
  trace : List Event
  ret : Ret

/-- The outcome of one block of the function: it goes on with a value, it
returns `NULL` with an error set, or its behaviour is undefined. -/
inductive Step (α : Type) where
  | ok (a : α)
  | fail (e : PyErr)
  | undefined (why : Undefined)

/-! ## The include-path buffer -/

/-- The block `malloc` returns: one cell per byte, `none` while the byte has
not been written. -/
abbrev Mem := List (Option Char)

/-- Writing the bytes `cs` at `offset`; `none` when a byte falls outside the
block. -/
def Mem.write (m : Mem) (offset : Nat) (cs : List Char) : Option Mem :=
  if offset + cs.length ≤ m.length then
    some (m.take offset ++ cs.map some ++ m.drop (offset + cs.length))
  else none

/-- The bytes of a block up to its last cell, when every cell has been
written. -/
def Mem.content (m : Mem) : Option CBuf :=
  if m.all Option.isSome then some (m.dropLast.filterMap id) else none

/-- The loop of lines 125-137 from index `i` on, over the elements not yet
visited: it checks that each is a string and adds up the sizes.  The elements
of a list or tuple always exist, so `item == NULL` (line 127) does not arise. -/
def size_loop : List PyObj → Nat → Nat → Step Nat
  | [], _, include_paths_size => .ok include_paths_size
  | item :: rest, i, include_paths_size =>
      if !PyBytes_Check item then
        .fail ⟨PyExc_TypeError,
          .format_zd "include_paths must consists of only strings, but #%zd is not a string" i⟩
      else size_loop rest (i + 1) (include_paths_size + PyBytes_Size item)

/-- The loop of lines 145-154 from index `i` on, over the elements not yet
visited: the block and the offset it ends with, `none` when a write leaves the
block or an element has no buffer. -/
def copy_loop : List PyObj → Nat → Nat → Mem → Option (Mem × Nat)
  | [], _, offset, mem => some (mem, offset)
  | item :: rest, i, offset, mem =>
      let glued := if i ≠ 0 then (mem.write offset [COLON]).map (fun m => (m, offset + 1))
                   else some (mem, offset)
      match glued, PyBytes_AsString item with
      | some (mem1, offset1), some item_buffer =>
          let item_size := item_buffer.length
          match mem1.write offset1 (strncpy item_buffer item_size) with
          | some mem2 => copy_loop rest (i + 1) (offset1 + item_size) mem2
          | none => none
      | _, _ => none

/-- What a block of lines 115-162 leaves behind for a sequence: the bytes of
`include_paths_v` and the size passed to `malloc`. -/
structure Joined where
  include_paths_v : CBuf
  malloc_size : Nat

/-- Lines 123-155: size the elements, allocate, copy them with `:` in between
and write the terminator. -/
def join (items : List PyObj) : Step Joined :=
  let include_paths_num := items.length
  match size_loop items 0 0 with
  | .fail e => .fail e
  | .undefined u => .undefined u
  | .ok size0 =>
      let include_paths_size := if include_paths_num > 1 then size0 + (include_paths_num - 1) else size0
      let block : Mem := List.replicate (include_paths_size + 1) none
      match copy_loop items 0 0 block with
      | none => .undefined .buffer
      | some (mem, _) =>
          match mem.write include_paths_size [NUL] with
          | none => .undefined .buffer
          | some mem1 =>
              match mem1.content with
              | none => .undefined .buffer
              | some v => .ok ⟨v, include_paths_size + 1⟩

/-! ## The blocks of `PySass_compile` -/

/-- Lines 89-113: the value of `output_style_v` and of `expected_kwds`.  With an
empty string the loop is skipped and line 104 reads `i`, which nothing has
assigned. -/
def output_style_block (output_style : Option PyObj) (expected_kwds : Nat) :
    Step (OutputStyle × Nat) :=
  match output_style with
  | none => .ok (SASS_STYLE_NESTED, expected_kwds)
  | some .none => .ok (SASS_STYLE_NESTED, expected_kwds)
  | some (.bytes s) =>
      let item_size := s.length
      if item_size ≠ 0 then
        let stop := style_loop s item_size PySass_output_style_enum 0
        match PySass_output_style_enum.get? stop.1, stop.2 with
        | none, _ => .fail ⟨PyExc_ValueError, .text "invalid output_style option"⟩
        | some _, some output_style_v => .ok (output_style_v, expected_kwds + 1)
        | some _, none => .undefined .uninitialised_output_style_v
      else .undefined .uninitialised_i
  | some _ => .fail ⟨PyExc_TypeError, .text "output_style must be a string"⟩

/-- What lines 115-162 leave behind: the bytes of `include_paths_v`, where the
pointer points, the allocation made, and `expected_kwds`. -/
structure IncludePaths where
  include_paths_v : CBuf
  storage : Storage
  events : List Event
  expected_kwds : Nat

/-- Lines 115-162. -/
def include_paths_block (include_paths : Option PyObj) (expected_kwds : Nat) :
    Step IncludePaths :=
  match include_paths with
  | none => .ok ⟨[], .literal, [], expected_kwds⟩
  | some .none => .ok ⟨[], .literal, [], expected_kwds⟩
  | some (.bytes b) => .ok ⟨b, .object, [], expected_kwds + 1⟩
  | some (.seq items) =>
      match join items with
      | .ok j => .ok ⟨j.include_paths_v, .heap, [.malloc j.malloc_size], expected_kwds⟩
      | .fail e => .fail e
      | .undefined u => .undefined u
  | some _ => .fail ⟨PyExc_TypeError,
      .text "include_paths must be a list or a colon-separated string"⟩

/-- Lines 164-174: the bytes of `image_path_v` and `expected_kwds`. -/
def image_path_block (image_path : Option PyObj) (expected_kwds : Nat) : Step (CBuf × Nat) :=
  match image_path with
  | none => .ok (".".toList, expected_kwds)
  | some .none => .ok (".".toList, expected_kwds)
  | some (.bytes b) => .ok (b, expected_kwds + 1)
  | some _ => .fail ⟨PyExc_TypeError, .text "image_path must be a string"⟩

/-- `PyBytes_FromString`: a string object holding the C string at the pointer,
that is the bytes before the first terminator. -/
def PyBytes_FromString (p : CBuf) : PyObj :=
  .bytes (p.takeWhile (fun c => c ≠ NUL))

/-- Lines 176-279: the mode branches, up to the jump to `finalize`.  The events
of the branch and how the call will end. -/
def dispatch (env : Env) (string filename dirname : Option PyObj) (options : sass_options) :
    List Event × Ret :=
  match string, filename, dirname with
  | some s, _, _ =>
      match s with
      | .bytes source_string =>
          let ctx : sass_context := ⟨source_string, options⟩
          let out := env.sass_compile ctx
          ([.new_context .string, .compile_string ctx, .free_context .string],
            if out.error_status ≠ 0 then
              .returned none (some ⟨PySass_CompileError, .buffer out.error_message⟩)
            else .returned (some (PyBytes_FromString out.output_string)) none)
      | _ => ([], .returned none (some ⟨PyExc_TypeError, .text "string must be a string"⟩))
  | none, some f, _ =>
      match f with
      | .bytes filename_v =>
          if !env.access_R_OK filename_v then
            ([], .returned none
              (some ⟨PyExc_IOError, .format_s "filename '%s' cannot be read" filename_v⟩))
          else
            let ctx : sass_file_context := ⟨filename_v, options⟩
            let out := env.sass_compile_file ctx
            ([.new_context .filename, .compile_file ctx, .free_context .filename],
              if out.error_status ≠ 0 then
                .returned none (some ⟨PySass_CompileError, .buffer out.error_message⟩)
              else .returned (some (PyBytes_FromString out.output_string)) none)
      | _ => ([], .returned none (some ⟨PyExc_TypeError, .text "filename must be a string"⟩))
  | none, none, some d =>
      if !PySequence_Check d || PySequence_Size d ≠ 2 then
        ([], .returned none
          (some ⟨if PySequence_Check d then PyExc_ValueError else PyExc_TypeError,
            .text "dirname must be a (search_path, output_path) pair"⟩))
      else
        let search_path := PySequence_GetItem env.PY_MAJOR_VERSION d 0
        let output_path := PySequence_GetItem env.PY_MAJOR_VERSION d 1
        let ctx : sass_folder_context :=
          ⟨search_path.bind PyBytes_AsString, output_path.bind PyBytes_AsString, options⟩
        -- a failed `PyBytes_AsString` leaves a `TypeError` in the error indicator
        let pending : Option PyErr :=
          if ctx.search_path.isNone || ctx.output_path.isNone then some ⟨PyExc_TypeError, .api⟩
          else none
        let out := env.sass_compile_folder ctx
        ([.new_context .dirname, .compile_folder ctx, .free_context .dirname],
          if out.error_status ≠ 0 then
            .returned none (some ⟨PySass_CompileError, .buffer out.error_message⟩)
          else .returned (some .none) pending)
  | none, none, none => ([], .undefined .uninitialised_result)

/-- Lines 281-285, reached with the value `result` of the mode branch:
`free(include_paths_v)` when `include_paths` is present and passes
`PySequence_Check`, then `return result`.  Only a block obtained from `malloc`
may be passed to `free`; a string object passes `PySequence_Check` too, and
`free` on the buffer of an object is undefined behaviour. -/
def finalize (include_paths : Option PyObj) (storage : Storage) (result : Ret) :
    List Event × Ret :=
  match include_paths with
  | some o =>
      if PySequence_Check o then
        ([.free storage],
          match storage with
          | .heap => result
          | _ => .undefined .invalid_free)
      else ([], result)
  | none => ([], result)

/-! ## `PySass_compile` -/

/-- `PySass_compile` (lines 39-286) on the positional arguments `args` and the
keyword dictionary `kwds` (the empty list also stands for a `NULL`
dictionary, whose `PyDict_Size` is negative). -/
def PySass_compile (env : Env) (args : List PyObj) (kwds : List (String × PyObj)) : Run :=
  if args.length ≠ 0 then
    ⟨[], .returned none (some ⟨PyExc_TypeError, .text "compile() takes only keywords"⟩)⟩
  else if kwds.length < 1 then
    ⟨[], .returned none (some ⟨PyExc_TypeError,
      .text "compile() requires one of string, filename, or dirname"⟩)⟩
  else
    let expected_kwds := 1
    let string := PyDict_GetItemString kwds "string"
    let filename := PyDict_GetItemString kwds "filename"
    let dirname := PyDict_GetItemString kwds "dirname"
    if string.isNone && filename.isNone && dirname.isNone then
      ⟨[], .returned none (some ⟨PyExc_TypeError,
        .text "compile() requires one of string, filename, or dirname"⟩)⟩
    else if (string.isSome && !(filename.isNone && dirname.isNone)) ||
        (filename.isSome && !(string.isNone && dirname.isNone)) ||
        (dirname.isSome && !(string.isNone && filename.isNone)) then
      ⟨[], .returned none (some ⟨PyExc_TypeError,
        .text ("string, filename, and dirname arguments are " ++
          "exclusive for each other.  use only one at a time")⟩)⟩
    else
      let output_style := PyDict_GetItemString kwds "output_style"
      let include_paths := PyDict_GetItemString kwds "include_paths"
      let image_path := PyDict_GetItemString kwds "image_path"
      match output_style_block output_style expected_kwds with
      | .fail e => ⟨[], .returned none (some e)⟩
      | .undefined u => ⟨[], .undefined u⟩
      | .ok (output_style_v, expected_kwds1) =>
      match include_paths_block include_paths expected_kwds1 with
      | .fail e => ⟨[], .returned none (some e)⟩
      | .undefined u => ⟨[], .undefined u⟩
      | .ok paths =>
      match image_path_block image_path paths.expected_kwds with
      | .fail e => ⟨paths.events, .returned none (some e)⟩
      | .undefined u => ⟨paths.events, .undefined u⟩
      | .ok (image_path_v, _) =>
          let branch := dispatch env string filename dirname
            ⟨output_style_v, paths.include_paths_v, image_path_v⟩
          let last := finalize include_paths paths.storage branch.2
          ⟨paths.events ++ branch.1 ++ last.1, last.2⟩

/-! ## Vocabulary of the statements -/

/-- How many of the keys `string`, `filename`, `dirname` the keyword dictionary
holds, whatever their values. -/
def source_keys_present (kwds : List (String × PyObj)) : Nat :=
  (if (PyDict_GetItemString kwds "string").isSome then 1 else 0) +
  (if (PyDict_GetItemString kwds "filename").isSome then 1 else 0) +
  (if (PyDict_GetItemString kwds "dirname").isSome then 1 else 0)

/-- The error of lines 79-81. -/
def exclusive_error : PyErr :=
  ⟨PyExc_TypeError, .text ("string, filename, and dirname arguments are " ++
    "exclusive for each other.  use only one at a time")⟩

/-- The error of lines 59-61 and 71-73. -/
def requires_error : PyErr :=
  ⟨PyExc_TypeError, .text "compile() requires one of string, filename, or dirname"⟩

/-- Whether an event allocates, uses or releases an engine context. -/
def Event.is_context : Event → Bool
  | .new_context _ => true
  | .compile_string _ => true
  | .compile_file _ => true
  | .compile_folder _ => true
  | .free_context _ => true
  | .malloc _ => false
  | .free _ => false

/-- The events of a trace that concern an engine context, in order. -/
def context_events (trace : List Event) : List Event :=
  trace.filter Event.is_context

/-- Whether an event allocates an engine context. -/
def Event.is_new_context : Event → Bool
  | .new_context _ => true
  | _ => false

/-- Whether an event releases an engine context. -/
def Event.is_free_context : Event → Bool
  | .free_context _ => true
  | _ => false

/-- The number of engine contexts a trace allocates. -/
def allocations (trace : List Event) : Nat :=
  (trace.filter Event.is_new_context).length

/-- The number of engine contexts a trace releases. -/
def releases (trace : List Event) : Nat :=
  (trace.filter Event.is_free_context).length

/-- The options an engine entry point receives, for the events that are calls
of an entry point. -/
def Event.options : Event → Option sass_options
  | .compile_string ctx => some ctx.options
  | .compile_file ctx => some ctx.options
  | .compile_folder ctx => some ctx.options
  | _ => none

/-- The mode of the entry point an event calls. -/
def Event.entry_point : Event → Option Mode
  | .compile_string _ => some .string
  | .compile_file _ => some .filename
  | .compile_folder _ => some .dirname
  | _ => none

/-- The status and message the engine of `env` reports for a call of an entry
point. -/
def Event.reply (env : Env) : Event → Option (Int × CBuf)
  | .compile_string ctx => some ((env.sass_compile ctx).error_status, (env.sass_compile ctx).error_message)
  | .compile_file ctx => some ((env.sass_compile_file ctx).error_status, (env.sass_compile_file ctx).error_message)
  | .compile_folder ctx =>
      some ((env.sass_compile_folder ctx).error_status, (env.sass_compile_folder ctx).error_message)
  | _ => none

/-- The outcome of lines 85-174 when the three optional arguments are all
accepted: the options for the engine and what the include-path block left
behind; `none` when one of the three blocks does not go on. -/
def resolved_options (kwds : List (String × PyObj)) : Option (sass_options × IncludePaths) :=
  match output_style_block (PyDict_GetItemString kwds "output_style") 1 with
  | .ok (output_style_v, expected_kwds1) =>
      match include_paths_block (PyDict_GetItemString kwds "include_paths") expected_kwds1 with
      | .ok paths =>
          match image_path_block (PyDict_GetItemString kwds "image_path") paths.expected_kwds with
          | .ok (image_path_v, _) => some (⟨output_style_v, paths.include_paths_v, image_path_v⟩, paths)
          | _ => none
      | _ => none
  | _ => none

/-- The bytes the copy loop writes from index `i` on, for string elements with
the buffers `segs`: before each element but the one of index 0 a `:`, then
what `strncpy` copies of the element. -/
def written : Nat → List CBuf → List Char
  | _, [] => []
  | i, s :: rest => (if i ≠ 0 then [COLON] else []) ++ strncpy s s.length ++ written (i + 1) rest

/-- The C string a `char *` holds: the bytes before the first NUL byte. -/
def c_str (p : CBuf) : CBuf :=
  p.takeWhile (fun c => c ≠ NUL)

/-- The outcome of a block with its value changed by `f`. -/
def Step.map {α β : Type} (f : α → β) : Step α → Step β
  | .ok a => .ok (f a)
  | .fail e => .fail e
  | .undefined u => .undefined u

/-- What the include-path block leaves behind, `expected_kwds` left out. -/
def IncludePaths.without_count (paths : IncludePaths) : CBuf × Storage × List Event :=
  (paths.include_paths_v, paths.storage, paths.events)

/-- The number of `malloc` calls for `include_paths_v` in a trace. -/
def buffer_allocations (trace : List Event) : Nat :=
  (trace.filter fun e => match e with
    | .malloc _ => true
    | _ => false).length

/-- The `free(include_paths_v)` calls in a trace, each with where its pointer
points. -/
def buffer_releases (trace : List Event) : List Storage :=
  trace.filterMap fun e => match e with
    | .free s => some s
    | _ => none

/-- The error of line 55. -/
def keywords_only_error : PyErr :=
  ⟨PyExc_TypeError, .text "compile() takes only keywords"⟩

/-- The size of the join of `segs`: `sum(len) + max(0, count - 1)`, the
subtraction of natural numbers stopping at 0. -/
def joined_size (segs : List CBuf) : Nat :=
  (segs.map List.length).sum + (segs.length - 1)

/-- The keywords `PySass_compile` looks up (lines 66-68 and 85-87). -/
def known_keywords : List String :=
  ["string", "filename", "dirname", "output_style", "include_paths", "image_path"]

/-! ## Worked inputs -/

/-- An environment for worked inputs: Python 2, only `style.scss` readable, a
string and a file entry point that succeed and give back their input, and a
folder entry point that fails with the message `boom` on the search path
`badsrc`. -/
def example_env : Env where
  PY_MAJOR_VERSION := 2
  access_R_OK := fun p => p == "style.scss".toList
  sass_compile := fun ctx => ⟨0, [], ctx.source_string⟩
  sass_compile_file := fun ctx => ⟨0, [], ctx.input_path⟩
  sass_compile_folder := fun ctx =>
    if ctx.search_path = some "badsrc".toList then ⟨1, "boom".toList⟩ else ⟨0, []⟩

/-- The options of a call that gives none of the three optional arguments. -/
def default_options : sass_options := ⟨SASS_STYLE_NESTED, [], ".".toList⟩

/-! ## Structure of a call -/

theorem include_paths_block_events (include_paths : Option PyObj) (k : Nat) (paths : IncludePaths)
    (h : include_paths_block include_paths k = .ok paths) :
    context_events paths.events = [] := by
  unfold include_paths_block at h
  split at h
  · cases h; rfl
  · cases h; rfl
  · cases h; rfl
  · split at h
    · cases h; rfl
    · cases h
    · cases h
  · cases h

theorem finalize_events (include_paths : Option PyObj) (storage : Storage) (result : Ret) :
    context_events (finalize include_paths storage result).1 = [] := by
  unfold finalize
  split
  · split <;> rfl
  · rfl

/-- `finalize` hands the result of the mode branch on or, after a `free` of a
pointer that is no block of `malloc`, leaves the behaviour undefined. -/
theorem finalize_ret_cases (include_paths : Option PyObj) (storage : Storage) (result : Ret) :
    (finalize include_paths storage result).2 = result ∨
    (finalize include_paths storage result).2 = .undefined .invalid_free := by
  unfold finalize
  split
  · split
    · cases storage
      · exact Or.inr rfl
      · exact Or.inr rfl
      · exact Or.inl rfl
    · exact Or.inl rfl
  · exact Or.inl rfl

/-- `finalize` hands the result of the mode branch on when `include_paths` is
not a string object: the pointer it frees, if any, is the block of the join. -/
theorem finalize_ret_of_block (include_paths : Option PyObj) (k : Nat) (paths : IncludePaths)
    (result : Ret) (hblock : include_paths_block include_paths k = .ok paths)
    (hraw : ∀ b, include_paths ≠ some (.bytes b)) :
    (finalize include_paths paths.storage result).2 = result := by
  unfold include_paths_block at hblock
  split at hblock
  · rfl
  · rfl
  · rename_i b
    exact absurd rfl (hraw b)
  · split at hblock
    · cases hblock; rfl
    · cases hblock
    · cases hblock
  · cases hblock

/-- With a string object as `include_paths`, `finalize` frees the buffer of that
object: the behaviour of the call is undefined. -/
theorem finalize_ret_of_raw_string (b : CBuf) (k : Nat) (paths : IncludePaths) (result : Ret)
    (hblock : include_paths_block (some (.bytes b)) k = .ok paths) :
    finalize (some (.bytes b)) paths.storage result =
      ([.free .object], .undefined .invalid_free) := by
  simp only [include_paths_block, Step.ok.injEq] at hblock
  subst hblock
  rfl

/-- A call that passes the source-key checks and whose optional arguments are
accepted runs the mode branch between the allocation of the include-path
buffer and `finalize`. -/
theorem compile_of_resolved (env : Env) (kwds : List (String × PyObj))
    (o : sass_options) (paths : IncludePaths)
    (hone : source_keys_present kwds = 1)
    (hres : resolved_options kwds = some (o, paths)) :
    PySass_compile env [] kwds =
      ⟨paths.events ++
        (dispatch env (PyDict_GetItemString kwds "string") (PyDict_GetItemString kwds "filename")
          (PyDict_GetItemString kwds "dirname") o).1 ++
        (finalize (PyDict_GetItemString kwds "include_paths") paths.storage
          (dispatch env (PyDict_GetItemString kwds "string")
            (PyDict_GetItemString kwds "filename") (PyDict_GetItemString kwds "dirname") o).2).1,
       (finalize (PyDict_GetItemString kwds "include_paths") paths.storage
          (dispatch env (PyDict_GetItemString kwds "string")
            (PyDict_GetItemString kwds "filename") (PyDict_GetItemString kwds "dirname") o).2).2⟩ := by
  cases kwds with
  | nil => simp [source_keys_present, PyDict_GetItemString] at hone
  | cons kv rest =>
    simp only [source_keys_present, resolved_options] at hone hres
    simp only [PySass_compile]
    generalize PyDict_GetItemString (kv :: rest) "string" = s at hone ⊢
    generalize PyDict_GetItemString (kv :: rest) "filename" = f at hone ⊢
    generalize PyDict_GetItemString (kv :: rest) "dirname" = d at hone ⊢
    generalize output_style_block (PyDict_GetItemString (kv :: rest) "output_style") 1 = b1 at hres ⊢
    cases b1 with
    | fail e => simp at hres
    | undefined u => simp at hres
    | ok a =>
      obtain ⟨v, k1⟩ := a
      simp only at hres ⊢
      generalize include_paths_block (PyDict_GetItemString (kv :: rest) "include_paths") k1 = b2 at hres ⊢
      cases b2 with
      | fail e => simp at hres
      | undefined u => simp at hres
      | ok p =>
        simp only at hres ⊢
        generalize image_path_block (PyDict_GetItemString (kv :: rest) "image_path") p.expected_kwds = b3 at hres ⊢
        cases b3 with
        | fail e => simp at hres
        | undefined u => simp at hres
        | ok c =>
          obtain ⟨img, k3⟩ := c
          simp only [Option.some.injEq, Prod.mk.injEq] at hres
          obtain ⟨rfl, rfl⟩ := hres
          cases s <;> cases f <;> cases d <;> simp at hone ⊢

/-- A call whose trace holds an event about an engine context had no
positional argument, exactly one source key, and accepted optional
arguments. -/
theorem compile_reaches (env : Env) (args : List PyObj) (kwds : List (String × PyObj))
    (h : context_events (PySass_compile env args kwds).trace ≠ []) :
    args = [] ∧ source_keys_present kwds = 1 ∧
      ∃ o paths, resolved_options kwds = some (o, paths) := by
  cases args with
  | cons a as => simp [PySass_compile, context_events] at h
  | nil =>
    refine ⟨rfl, ?_⟩
    cases kwds with
    | nil => simp [PySass_compile, context_events] at h
    | cons kv rest =>
      simp only [source_keys_present, resolved_options]
      simp only [PySass_compile] at h
      generalize PyDict_GetItemString (kv :: rest) "string" = s at h ⊢
      generalize PyDict_GetItemString (kv :: rest) "filename" = f at h ⊢
      generalize PyDict_GetItemString (kv :: rest) "dirname" = d at h ⊢
      generalize output_style_block (PyDict_GetItemString (kv :: rest) "output_style") 1 = b1 at h ⊢
      have hkeys : (if s.isSome = true then 1 else 0) + (if f.isSome = true then 1 else 0) +
          (if d.isSome = true then 1 else 0) = 1 := by
        cases s <;> cases f <;> cases d <;> simp [context_events] at h ⊢
      refine ⟨hkeys, ?_⟩
      cases b1 with
      | fail e => cases s <;> cases f <;> cases d <;> simp [context_events] at h
      | undefined u => cases s <;> cases f <;> cases d <;> simp [context_events] at h
      | ok a =>
        obtain ⟨v, k1⟩ := a
        simp only at h ⊢
        generalize hb2 : include_paths_block (PyDict_GetItemString (kv :: rest) "include_paths") k1 = b2 at h ⊢
        cases b2 with
        | fail e => cases s <;> cases f <;> cases d <;> simp [context_events] at h
        | undefined u => cases s <;> cases f <;> cases d <;> simp [context_events] at h
        | ok p =>
          simp only at h ⊢
          have hp : List.filter Event.is_context p.events = [] := include_paths_block_events _ _ _ hb2
          generalize image_path_block (PyDict_GetItemString (kv :: rest) "image_path") p.expected_kwds = b3 at h ⊢
          cases b3 with
          | fail e => cases s <;> cases f <;> cases d <;> simp [hp, context_events] at h
          | undefined u => cases s <;> cases f <;> cases d <;> simp [hp, context_events] at h
          | ok c => exact ⟨_, _, rfl⟩

/-- The mode branch either touches no engine context or allocates one, calls
the entry point of the same mode with the given options, and releases it; a
non-zero status then ends the call with `sass.CompileError` and the engine's
message. -/
theorem dispatch_shape (env : Env) (s f d : Option PyObj) (o : sass_options) :
    (dispatch env s f d o).1 = [] ∨
    ∃ m ev, (dispatch env s f d o).1 = [.new_context m, ev, .free_context m] ∧
      ev.entry_point = some m ∧ ev.options = some o ∧
      ∀ status msg, ev.reply env = some (status, msg) → status ≠ 0 →
        (dispatch env s f d o).2 = .returned none (some ⟨PySass_CompileError, .buffer msg⟩) := by
  unfold dispatch
  split
  · split
    · right
      refine ⟨.string, _, rfl, rfl, rfl, ?_⟩
      intro status msg h hst
      simp only [Event.reply, Option.some.injEq, Prod.mk.injEq] at h
      obtain ⟨h1, h2⟩ := h
      subst h1 h2
      simp [hst]
    · left; rfl
  · split
    · split
      · left; rfl
      · right
        refine ⟨.filename, _, rfl, rfl, rfl, ?_⟩
        intro status msg h hst
        simp only [Event.reply, Option.some.injEq, Prod.mk.injEq] at h
        obtain ⟨h1, h2⟩ := h
        subst h1 h2
        simp [hst]
    · left; rfl
  · split
    · left; rfl
    · right
      refine ⟨.dirname, _, rfl, rfl, rfl, ?_⟩
      intro status msg h hst
      simp only [Event.reply, Option.some.injEq, Prod.mk.injEq] at h
      obtain ⟨h1, h2⟩ := h
      subst h1 h2
      simp [hst]
  · left; rfl

theorem mem_of_context_events_nil {trace : List Event} (h : context_events trace = [])
    {ev : Event} (hev : ev ∈ trace) : ev.is_context = false := by
  cases hc : ev.is_context with
  | false => rfl
  | true =>
    have : ev ∈ context_events trace := List.mem_filter.mpr ⟨hev, hc⟩
    rw [h] at this
    cases this

/-- An event about an engine context in the trace of a call is an event of
the mode branch of a call that reached it. -/
theorem context_event_of_compile (env : Env) (args : List PyObj) (kwds : List (String × PyObj))
    (ev : Event) (hev : ev ∈ (PySass_compile env args kwds).trace) (hc : ev.is_context = true) :
    args = [] ∧ source_keys_present kwds = 1 ∧
    ∃ o paths, resolved_options kwds = some (o, paths) ∧
      ev ∈ (dispatch env (PyDict_GetItemString kwds "string") (PyDict_GetItemString kwds "filename")
          (PyDict_GetItemString kwds "dirname") o).1 ∧
      (PySass_compile env args kwds).ret =
        (finalize (PyDict_GetItemString kwds "include_paths") paths.storage
          (dispatch env (PyDict_GetItemString kwds "string")
            (PyDict_GetItemString kwds "filename") (PyDict_GetItemString kwds "dirname") o).2).2 := by
  have hne : context_events (PySass_compile env args kwds).trace ≠ [] := by
    intro hnil
    have := mem_of_context_events_nil hnil hev
    rw [hc] at this
    cases this
  obtain ⟨rfl, hone, o, paths, hres⟩ := compile_reaches env args kwds hne
  refine ⟨rfl, hone, o, paths, hres, ?_, ?_⟩
  · rw [compile_of_resolved env kwds o paths hone hres] at hev
    simp only [List.mem_append] at hev
    rcases hev with (h | h) | h
    · have hp : context_events paths.events = [] := by
        simp only [resolved_options] at hres
        split at hres
        · split at hres
          · rename_i p hp2
            split at hres
            · simp only [Option.some.injEq, Prod.mk.injEq] at hres
              obtain ⟨-, rfl⟩ := hres
              exact include_paths_block_events _ _ _ hp2
            · cases hres
          · cases hres
        · cases hres
      have := mem_of_context_events_nil hp h
      rw [hc] at this
      cases this
    · exact h
    · have := mem_of_context_events_nil (finalize_events _ _ _) h
      rw [hc] at this
      cases this
  · rw [compile_of_resolved env kwds o paths hone hres]

/-- What `resolved_options` holds: each of the three options is the value its
block computed. -/
theorem resolved_options_spec (kwds : List (String × PyObj)) (o : sass_options)
    (paths : IncludePaths) (h : resolved_options kwds = some (o, paths)) :
    ∃ k1 k3, output_style_block (PyDict_GetItemString kwds "output_style") 1 =
        .ok (o.output_style, k1) ∧
      include_paths_block (PyDict_GetItemString kwds "include_paths") k1 = .ok paths ∧
      image_path_block (PyDict_GetItemString kwds "image_path") paths.expected_kwds =
        .ok (o.image_path, k3) ∧
      o.include_paths = paths.include_paths_v := by
  simp only [resolved_options] at h
  split at h
  · rename_i v k1 h1
    split at h
    · rename_i p h2
      split at h
      · rename_i img k3 h3
        simp only [Option.some.injEq, Prod.mk.injEq] at h
        obtain ⟨rfl, rfl⟩ := h
        exact ⟨k1, k3, h1, h2, h3, rfl⟩
      · cases h
    · cases h
  · cases h

/-- The options an engine entry point receives are the resolved options of
the call. -/
theorem options_of_engine_call (env : Env) (args : List PyObj) (kwds : List (String × PyObj))
    (ev : Event) (o : sass_options) (hev : ev ∈ (PySass_compile env args kwds).trace)
    (ho : ev.options = some o) :
    ∃ paths, resolved_options kwds = some (o, paths) := by
  have hc : ev.is_context = true := by
    cases ev <;> simp [Event.options] at ho <;> rfl
  obtain ⟨-, -, o1, paths, hres, hmem, -⟩ := context_event_of_compile env args kwds ev hev hc
  refine ⟨paths, ?_⟩
  rcases dispatch_shape env (PyDict_GetItemString kwds "string")
    (PyDict_GetItemString kwds "filename") (PyDict_GetItemString kwds "dirname") o1 with h | h
  · rw [h] at hmem; cases hmem
  · obtain ⟨m, ev1, hshape, -, hopt, -⟩ := h
    rw [hshape] at hmem
    simp only [List.mem_cons, List.mem_singleton, List.not_mem_nil, or_false] at hmem
    rcases hmem with rfl | rfl | rfl
    · simp [Event.options] at ho
    · rw [hopt] at ho
      cases ho
      exact hres
    · simp [Event.options] at ho

theorem dispatch_context_events (env : Env) (s f d : Option PyObj) (o : sass_options) :
    context_events (dispatch env s f d o).1 = (dispatch env s f d o).1 := by
  rcases dispatch_shape env s f d o with h | ⟨m, ev, h, hm, -, -⟩
  · rw [h]; rfl
  · rw [h]
    cases ev <;> simp [Event.entry_point] at hm <;> rfl

/-- For a call that reaches its mode branch, the events about an engine
context are those of the branch, and the call ends as `finalize` does with the
result of the branch. -/
theorem compile_mode_branch (env : Env) (kwds : List (String × PyObj))
    (o : sass_options) (paths : IncludePaths)
    (hone : source_keys_present kwds = 1)
    (hres : resolved_options kwds = some (o, paths)) :
    context_events (PySass_compile env [] kwds).trace =
      (dispatch env (PyDict_GetItemString kwds "string") (PyDict_GetItemString kwds "filename")
          (PyDict_GetItemString kwds "dirname") o).1 ∧
    (PySass_compile env [] kwds).ret =
      (finalize (PyDict_GetItemString kwds "include_paths") paths.storage
        (dispatch env (PyDict_GetItemString kwds "string") (PyDict_GetItemString kwds "filename")
          (PyDict_GetItemString kwds "dirname") o).2).2 := by
  rw [compile_of_resolved env kwds o paths hone hres]
  refine ⟨?_, rfl⟩
  obtain ⟨k1, k3, -, h2, -, -⟩ := resolved_options_spec kwds o paths hres
  have hp := include_paths_block_events _ _ _ h2
  have hf := finalize_events (PyDict_GetItemString kwds "include_paths") paths.storage
    (dispatch env (PyDict_GetItemString kwds "string") (PyDict_GetItemString kwds "filename")
      (PyDict_GetItemString kwds "dirname") o).2
  have hd := dispatch_context_events env (PyDict_GetItemString kwds "string")
    (PyDict_GetItemString kwds "filename") (PyDict_GetItemString kwds "dirname") o
  simp only [context_events, List.filter_append] at hp hf hd ⊢
  rw [hp, hf, hd]
  simp

/-- For a call that reaches its mode branch and whose `include_paths` is not a
string object, the call ends as the branch does. -/
theorem compile_mode_branch_ret (env : Env) (kwds : List (String × PyObj))
    (o : sass_options) (paths : IncludePaths)
    (hone : source_keys_present kwds = 1)
    (hres : resolved_options kwds = some (o, paths))
    (hraw : ∀ b, PyDict_GetItemString kwds "include_paths" ≠ some (.bytes b)) :
    (PySass_compile env [] kwds).ret =
      (dispatch env (PyDict_GetItemString kwds "string") (PyDict_GetItemString kwds "filename")
          (PyDict_GetItemString kwds "dirname") o).2 := by
  obtain ⟨k1, k3, -, h2, -, -⟩ := resolved_options_spec kwds o paths hres
  rw [(compile_mode_branch env kwds o paths hone hres).2]
  exact finalize_ret_of_block _ k1 paths _ h2 hraw

/-- For a call that reaches its mode branch and whose `include_paths` is a
string object, `finalize` frees the buffer of that object and the behaviour of
the call is undefined. -/
theorem compile_mode_branch_raw_string (env : Env) (kwds : List (String × PyObj))
    (o : sass_options) (paths : IncludePaths) (b : CBuf)
    (hone : source_keys_present kwds = 1)
    (hres : resolved_options kwds = some (o, paths))
    (hraw : PyDict_GetItemString kwds "include_paths" = some (.bytes b)) :
    (PySass_compile env [] kwds).ret = .undefined .invalid_free := by
  obtain ⟨k1, k3, -, h2, -, -⟩ := resolved_options_spec kwds o paths hres
  rw [(compile_mode_branch env kwds o paths hone hres).2]
  rw [hraw] at h2 ⊢
  rw [finalize_ret_of_raw_string b k1 paths _ h2]

theorem allocations_context_events (trace : List Event) :
    allocations (context_events trace) = allocations trace := by
  induction trace with
  | nil => rfl
  | cons e rest ih =>
    simp only [allocations, context_events] at ih ⊢
    cases e <;>
      simp only [List.filter_cons, Event.is_context, Event.is_new_context, if_true, if_false,
        List.length_cons, Bool.false_eq_true] <;>
      simp only [ih]

theorem releases_context_events (trace : List Event) :
    releases (context_events trace) = releases trace := by
  induction trace with
  | nil => rfl
  | cons e rest ih =>
    simp only [releases, context_events] at ih ⊢
    cases e <;>
      simp only [List.filter_cons, Event.is_context, Event.is_free_context, if_true, if_false,
        List.length_cons, Bool.false_eq_true] <;>
      simp only [ih]

/-- The events about an engine context of any call are none, or one
allocation, one call of the entry point of the same mode, and one release of
the same mode, in this order. -/
theorem context_events_shape (env : Env) (args : List PyObj) (kwds : List (String × PyObj)) :
    context_events (PySass_compile env args kwds).trace = [] ∨
    ∃ m ev, context_events (PySass_compile env args kwds).trace =
        [.new_context m, ev, .free_context m] ∧ ev.entry_point = some m := by
  by_cases h : context_events (PySass_compile env args kwds).trace = []
  · exact Or.inl h
  · right
    obtain ⟨rfl, hone, o, paths, hres⟩ := compile_reaches env args kwds h
    obtain ⟨htrace, -⟩ := compile_mode_branch env kwds o paths hone hres
    rw [htrace] at h ⊢
    rcases dispatch_shape env (PyDict_GetItemString kwds "string")
      (PyDict_GetItemString kwds "filename") (PyDict_GetItemString kwds "dirname") o with h0 | h1
    · exact absurd h0 h
    · obtain ⟨m, ev, hshape, hm, -, -⟩ := h1
      exact ⟨m, ev, hshape, hm⟩

/-! ## The join of the include paths (lines 123-155) -/

theorem strncpy_length (s : CBuf) (n : Nat) : (strncpy s n).length = n := by
  induction n generalizing s with
  | zero => cases s <;> rfl
  | succ n ih =>
    cases s with
    | nil => simp [strncpy, ih]
    | cons c cs =>
      simp only [strncpy]
      split <;> simp [ih]

theorem strncpy_of_no_NUL (s : CBuf) (h : NUL ∉ s) : strncpy s s.length = s := by
  induction s with
  | nil => rfl
  | cons c cs ih =>
    simp only [List.mem_cons, not_or] at h
    simp only [List.length_cons, strncpy]
    rw [if_neg (fun hc => h.1 hc.symm), ih h.2]

theorem size_loop_bytes (segs : List CBuf) (i acc : Nat) :
    size_loop (segs.map PyObj.bytes) i acc = .ok (acc + (segs.map List.length).sum) := by
  induction segs generalizing i acc with
  | nil => simp [size_loop]
  | cons s rest ih =>
    simp only [List.map_cons, size_loop, PyBytes_Check, PyBytes_Size, List.sum_cons]
    rw [ih]
    simp [Nat.add_assoc]

theorem written_length (segs : List CBuf) (i : Nat) :
    (written i segs).length =
      (segs.map List.length).sum + (if i = 0 then segs.length - 1 else segs.length) := by
  induction segs generalizing i with
  | nil => simp [written]
  | cons s rest ih =>
    simp only [written, List.length_append, strncpy_length, ih, List.map_cons, List.sum_cons,
      List.length_cons]
    by_cases hi : i = 0
    · subst hi; simp; omega
    · simp [hi]; omega

theorem write_fresh (pre cs : List Char) (n : Nat) (h : cs.length ≤ n) :
    Mem.write (pre.map some ++ List.replicate n none) pre.length cs =
      some ((pre ++ cs).map some ++ List.replicate (n - cs.length) none) := by
  unfold Mem.write
  have hlen : pre.length + cs.length ≤ (pre.map some ++ List.replicate n (none : Option Char)).length := by
    simp; omega
  rw [if_pos hlen]
  have h1 : List.take pre.length (pre.map some ++ List.replicate n (none : Option Char)) = pre.map some := by
    rw [List.take_append_of_le_length (by simp)]
    simp
  have h2 : List.drop (pre.length + cs.length) (pre.map some ++ List.replicate n (none : Option Char)) =
      List.replicate (n - cs.length) none := by
    rw [List.drop_append_eq_append_drop]
    simp
  rw [h1, h2]
  simp

/-- The copy loop on string elements, started on a block whose first
`pre.length` bytes are written and that has room for what the loop writes. -/
theorem copy_loop_fresh (segs : List CBuf) (i : Nat) (pre : List Char) (n : Nat)
    (h : (written i segs).length ≤ n) :
    copy_loop (segs.map PyObj.bytes) i pre.length (pre.map some ++ List.replicate n none) =
      some ((pre ++ written i segs).map some ++ List.replicate (n - (written i segs).length) none,
        pre.length + (written i segs).length) := by
  induction segs generalizing i pre n with
  | nil => simp [copy_loop, written]
  | cons s rest ih =>
    simp only [written, List.length_append, strncpy_length] at h
    simp only [List.map_cons, copy_loop, PyBytes_AsString]
    by_cases hi : i = 0
    · subst hi
      simp only [ne_eq, not_true_eq_false, if_false, List.length_nil, Nat.zero_add,
        List.nil_append] at h ⊢
      rw [write_fresh pre (strncpy s s.length) n (by rw [strncpy_length]; omega)]
      simp only [strncpy_length]
      have := ih 1 (pre ++ strncpy s s.length) (n - s.length) (by omega)
      simp only [List.length_append, strncpy_length] at this
      rw [this]
      simp only [written, ne_eq, not_true_eq_false, if_false, List.nil_append, List.length_append,
        strncpy_length, List.append_assoc, Option.some.injEq, Prod.mk.injEq, Nat.zero_add]
      refine ⟨?_, by omega⟩
      congr 2
      omega
    · simp only [ne_eq, hi, not_false_eq_true, if_true, List.length_singleton] at h ⊢
      have hw := write_fresh pre [COLON] n (by simp; omega)
      rw [hw]
      simp only [Option.map_some', List.length_singleton]
      have hw2 := write_fresh (pre ++ [COLON]) (strncpy s s.length) (n - 1)
        (by rw [strncpy_length]; omega)
      simp only [List.length_append, List.length_singleton] at hw2
      rw [hw2]
      simp only [strncpy_length]
      have := ih (i + 1) (pre ++ [COLON] ++ strncpy s s.length) (n - 1 - s.length) (by omega)
      simp only [List.length_append, List.length_singleton, strncpy_length] at this
      rw [this]
      simp only [written, ne_eq, hi, not_false_eq_true, if_true, List.length_append,
        List.length_singleton, strncpy_length, List.append_assoc, Option.some.injEq,
        Prod.mk.injEq, COLON]
      refine ⟨?_, by omega⟩
      congr 2
      all_goals first | rfl | omega

theorem content_written (w : List Char) :
    Mem.content ((w ++ [NUL]).map some ++ List.replicate 0 none) = some w := by
  unfold Mem.content
  have hall : ((w ++ [NUL]).map some ++ List.replicate 0 (none : Option Char)).all Option.isSome = true := by
    simp
  rw [if_pos hall]
  simp [List.dropLast_concat, List.filterMap_map]

/-- On a sequence of strings the join never leaves the allocated block and
reads no unwritten byte: it ends with the bytes `written 0 segs`, in a block of
`sum(len) + max(0, count-1) + 1` bytes. -/
theorem join_bytes (segs : List CBuf) :
    join (segs.map PyObj.bytes) =
      .ok ⟨written 0 segs, (segs.map List.length).sum + (segs.length - 1) + 1⟩ := by
  have hsize : (if (segs.map PyObj.bytes).length > 1
      then 0 + (segs.map List.length).sum + ((segs.map PyObj.bytes).length - 1)
      else 0 + (segs.map List.length).sum) = (segs.map List.length).sum + (segs.length - 1) := by
    simp only [List.length_map]
    split <;> omega
  have hlen : (written 0 segs).length = (segs.map List.length).sum + (segs.length - 1) := by
    rw [written_length]; simp
  unfold join
  simp only [size_loop_bytes, hsize]
  have hcopy := copy_loop_fresh segs 0 [] ((segs.map List.length).sum + (segs.length - 1) + 1)
    (by omega)
  simp only [List.map_nil, List.nil_append, List.length_nil, Nat.zero_add] at hcopy
  rw [hcopy]
  simp only
  have hw := write_fresh (written 0 segs) [NUL] 1 (by simp)
  rw [hlen] at hw
  have h1 : (segs.map List.length).sum + (segs.length - 1) + 1 - (written 0 segs).length = 1 := by
    omega
  rw [h1, hw]
  simp only [List.length_singleton, Nat.sub_self]
  rw [content_written]

theorem written_succ_of_no_NUL (segs : List CBuf) (i : Nat) (hi : i ≠ 0)
    (h : ∀ s ∈ segs, NUL ∉ s) :
    written i segs = (segs.map (fun s => COLON :: s)).flatten := by
  induction segs generalizing i with
  | nil => rfl
  | cons s rest ih =>
    simp only [written, ne_eq, hi, not_false_eq_true, if_true, List.map_cons, List.flatten_cons]
    rw [strncpy_of_no_NUL s (h s (List.mem_cons_self _ _)),
      ih (i + 1) (by omega) (fun t ht => h t (List.mem_cons_of_mem _ ht))]
    simp

theorem intercalate_cons (sep : List Char) (s : CBuf) (rest : List CBuf) :
    List.intercalate sep (s :: rest) = s ++ (rest.map (fun t => sep ++ t)).flatten := by
  induction rest generalizing s with
  | nil => simp [List.intercalate, List.intersperse]
  | cons t rest ih =>
    have := ih t
    simp only [List.intercalate] at this ⊢
    simp only [List.intersperse, List.flatten_cons, List.map_cons]
    rw [this]
    simp

/-- Without a NUL byte in any segment, the copy loop writes the segments in
order with one `:` between consecutive ones. -/
theorem written_of_no_NUL (segs : List CBuf) (h : ∀ s ∈ segs, NUL ∉ s) :
    written 0 segs = List.intercalate [COLON] segs := by
  cases segs with
  | nil => rfl
  | cons s rest =>
    rw [intercalate_cons]
    simp only [written, ne_eq, not_true_eq_false, if_false, List.nil_append, Nat.zero_add]
    rw [strncpy_of_no_NUL s (h s (List.mem_cons_self _ _)),
      written_succ_of_no_NUL rest 1 (by omega) (fun t ht => h t (List.mem_cons_of_mem _ ht))]
    simp

/-! ## Source keys (lines 54-83) -/

/-- C1: with no positional argument, a keyword dictionary holding two or more
of `string`, `filename`, `dirname` (whatever the values and the other keys)
makes the call return `NULL` with the `TypeError` "exclusive for each other",
one holding none of them makes it return `NULL` with the `TypeError` "requires
one of string, filename, or dirname"; in both cases the trace is empty: no
engine call is made. -/
theorem compile_source_keys (env : Env) (kwds : List (String × PyObj)) :
    (2 ≤ source_keys_present kwds →
      (PySass_compile env [] kwds).trace = [] ∧
      (PySass_compile env [] kwds).ret = .returned none (some exclusive_error)) ∧
    (source_keys_present kwds = 0 →
      (PySass_compile env [] kwds).trace = [] ∧
      (PySass_compile env [] kwds).ret = .returned none (some requires_error)) := by
  cases kwds with
  | nil =>
    constructor
    · intro h
      simp [source_keys_present, PyDict_GetItemString] at h
    · intro _
      simp [PySass_compile, requires_error]
  | cons kv rest =>
    simp only [source_keys_present, PySass_compile]
    generalize PyDict_GetItemString (kv :: rest) "string" = s
    generalize PyDict_GetItemString (kv :: rest) "filename" = f
    generalize PyDict_GetItemString (kv :: rest) "dirname" = d
    cases s <;> cases f <;> cases d <;> simp [exclusive_error, requires_error]

/-- Two worked calls: one with two source keys, both `None`, and one with no source
key. -/
theorem compile_source_keys_witness :
    ((PySass_compile example_env [] [("string", .none), ("dirname", .none)]).trace = [] ∧
      (PySass_compile example_env [] [("string", .none), ("dirname", .none)]).ret =
        .returned none (some exclusive_error)) ∧
    ((PySass_compile example_env [] [("output_style", .bytes "nested".toList)]).trace = [] ∧
      (PySass_compile example_env [] [("output_style", .bytes "nested".toList)]).ret =
        .returned none (some requires_error)) :=
  ⟨(compile_source_keys example_env [("string", .none), ("dirname", .none)]).1 (by decide),
   (compile_source_keys example_env [("output_style", .bytes "nested".toList)]).2 (by decide)⟩

/-! ## Output style (lines 89-113) -/

/-- C2: an abbreviation of a style name is accepted.  With `output_style="comp"`
the block resolves `SASS_STYLE_COMPACT` instead of raising `ValueError`, and the
call goes on to the engine with that style, whatever the environment; a name
in another letter case, a name with extra characters and an unrelated word are
refused with the `ValueError` "invalid output_style option". -/
theorem output_style_abbreviation_accepted (env : Env) :
    output_style_block (some (.bytes "comp".toList)) 1 = .ok (SASS_STYLE_COMPACT, 2) ∧
    output_style_block (some (.bytes "n".toList)) 1 = .ok (SASS_STYLE_NESTED, 2) ∧
    (PySass_compile env []
        [("string", .bytes "a".toList), ("output_style", .bytes "comp".toList)]).trace =
      [.new_context .string,
       .compile_string ⟨"a".toList, ⟨SASS_STYLE_COMPACT, [], ".".toList⟩⟩,
       .free_context .string] ∧
    output_style_block (some (.bytes "Nested".toList)) 1 =
      .fail ⟨PyExc_ValueError, .text "invalid output_style option"⟩ ∧
    output_style_block (some (.bytes "nestedx".toList)) 1 =
      .fail ⟨PyExc_ValueError, .text "invalid output_style option"⟩ ∧
    output_style_block (some (.bytes "foo".toList)) 1 =
      .fail ⟨PyExc_ValueError, .text "invalid output_style option"⟩ :=
  ⟨rfl, rfl, rfl, rfl, rfl, rfl⟩

/-- C3: the four full names resolve to their own codes, an absent or `None`
`output_style` resolves to `SASS_STYLE_NESTED`, and the style in the options
of every engine call of a call of `PySass_compile` is the code the block
resolved from its `output_style` argument. -/
theorem style_table_honoured (env : Env) (args : List PyObj) (kwds : List (String × PyObj)) :
    (∀ k, output_style_block (some (.bytes "nested".toList)) k = .ok (SASS_STYLE_NESTED, k + 1)) ∧
    (∀ k, output_style_block (some (.bytes "expanded".toList)) k =
      .ok (SASS_STYLE_EXPANDED, k + 1)) ∧
    (∀ k, output_style_block (some (.bytes "compact".toList)) k = .ok (SASS_STYLE_COMPACT, k + 1)) ∧
    (∀ k, output_style_block (some (.bytes "compressed".toList)) k =
      .ok (SASS_STYLE_COMPRESSED, k + 1)) ∧
    (∀ k, output_style_block none k = .ok (SASS_STYLE_NESTED, k)) ∧
    (∀ k, output_style_block (some .none) k = .ok (SASS_STYLE_NESTED, k)) ∧
    (∀ ev o, ev ∈ (PySass_compile env args kwds).trace → ev.options = some o →
      ∃ k, output_style_block (PyDict_GetItemString kwds "output_style") 1 =
        .ok (o.output_style, k)) := by
  refine ⟨fun _ => rfl, fun _ => rfl, fun _ => rfl, fun _ => rfl, fun _ => rfl, fun _ => rfl, ?_⟩
  intro ev o hev ho
  obtain ⟨paths, hres⟩ := options_of_engine_call env args kwds ev o hev ho
  obtain ⟨k1, -, h1, -, -, -⟩ := resolved_options_spec kwds o paths hres
  exact ⟨k1, h1⟩

/-- A worked call: a string compiled with `output_style="compressed"`. -/
theorem style_table_honoured_witness :
    ∃ k, output_style_block (PyDict_GetItemString
        [("string", .bytes "a".toList), ("output_style", .bytes "compressed".toList)]
        "output_style") 1 = .ok (SASS_STYLE_COMPRESSED, k) :=
  (style_table_honoured example_env []
      [("string", .bytes "a".toList), ("output_style", .bytes "compressed".toList)]).2.2.2.2.2.2
    (.compile_string ⟨"a".toList, ⟨SASS_STYLE_COMPRESSED, [], ".".toList⟩⟩)
    ⟨SASS_STYLE_COMPRESSED, [], ".".toList⟩
    (List.Mem.tail _ (List.Mem.head _)) rfl

/-! ## Include paths (lines 122-156) -/

/-- C4, as stated, fails on a segment that holds a NUL byte: `strncpy` stops at
it and pads with NUL, so for the one-segment list `["a\0b"]` the bytes handed to
the engine are `a`, NUL, NUL and not the segment. -/
theorem include_paths_NUL_counterexample :
    (PySass_compile example_env []
        [("string", .bytes "x".toList), ("include_paths", .seq [.bytes ['a', NUL, 'b']])]).trace =
      [.malloc 4, .new_context .string,
       .compile_string ⟨"x".toList, ⟨SASS_STYLE_NESTED, ['a', NUL, NUL], ".".toList⟩⟩,
       .free_context .string, .free .heap] ∧
    ['a', NUL, NUL] ≠ List.intercalate [COLON] [['a', NUL, 'b']] :=
  ⟨rfl, by decide⟩

/-- C4, amended: for every list `segs` of strings none of which holds a NUL
byte, given as the sequence `include_paths`, the join ends with the segments
in order with one `:` between consecutive ones, of length
`sum(len) + max(0, count-1)`, in a block one byte longer, and these are the
include paths in the options of every engine call of the call; the joins of
`[]`, `["a"]` and `["a","b","c"]` are `""`, `"a"` and `"a:b:c"`. -/
theorem include_paths_joined (env : Env) (args : List PyObj) (kwds : List (String × PyObj))
    (segs : List CBuf) (hnul : ∀ s ∈ segs, NUL ∉ s)
    (hkey : PyDict_GetItemString kwds "include_paths" = some (.seq (segs.map PyObj.bytes))) :
    join (segs.map PyObj.bytes) =
      .ok ⟨List.intercalate [COLON] segs, (segs.map List.length).sum + (segs.length - 1) + 1⟩ ∧
    (List.intercalate [COLON] segs).length = (segs.map List.length).sum + (segs.length - 1) ∧
    (∀ ev o, ev ∈ (PySass_compile env args kwds).trace → ev.options = some o →
      o.include_paths = List.intercalate [COLON] segs) ∧
    join [] = .ok ⟨"".toList, 1⟩ ∧
    join [.bytes "a".toList] = .ok ⟨"a".toList, 2⟩ ∧
    join [.bytes "a".toList, .bytes "b".toList, .bytes "c".toList] = .ok ⟨"a:b:c".toList, 6⟩ := by
  have hjoin := join_bytes segs
  rw [written_of_no_NUL segs hnul] at hjoin
  have hlen : (List.intercalate [COLON] segs).length =
      (segs.map List.length).sum + (segs.length - 1) := by
    rw [← written_of_no_NUL segs hnul, written_length]; simp
  refine ⟨hjoin, hlen, ?_, rfl, rfl, rfl⟩
  intro ev o hev ho
  obtain ⟨paths, hres⟩ := options_of_engine_call env args kwds ev o hev ho
  obtain ⟨k1, -, -, h2, -, h4⟩ := resolved_options_spec kwds o paths hres
  rw [hkey] at h2
  simp only [include_paths_block, hjoin] at h2
  cases h2
  exact h4

/-- A worked call: a string compiled with `include_paths=["a", "b", "c"]`. -/
theorem include_paths_joined_witness :
    (∀ s ∈ ["a".toList, "b".toList, "c".toList], NUL ∉ s) ∧
    join (["a".toList, "b".toList, "c".toList].map PyObj.bytes) =
      .ok ⟨List.intercalate [COLON] ["a".toList, "b".toList, "c".toList], 3 + 2 + 1⟩ :=
  ⟨by decide,
   (include_paths_joined example_env []
      [("string", .bytes "x".toList),
       ("include_paths", .seq (["a".toList, "b".toList, "c".toList].map PyObj.bytes))]
      ["a".toList, "b".toList, "c".toList] (by decide) rfl).1⟩

/-! ## Folder mode (lines 241-275) -/

/-- C5: the elements of `dirname` are not checked.  With `dirname=(1, 2)` the
call allocates a folder context and calls the folder entry point with `NULL`
for both paths, whatever the environment; when the engine then reports
success the call returns `None` with the `TypeError` of `PyBytes_AsString`
still in the error indicator. -/
theorem dirname_elements_unchecked (env : Env) :
    (PySass_compile env [] [("dirname", .seq [.int 1, .int 2])]).trace =
      [.new_context .dirname, .compile_folder ⟨none, none, default_options⟩,
       .free_context .dirname] ∧
    (PySass_compile example_env [] [("dirname", .seq [.int 1, .int 2])]).ret =
      .returned (some .none) (some ⟨PyExc_TypeError, .api⟩) :=
  ⟨rfl, rfl⟩

/-- C6: a wrong shape of `dirname` does not always end the call with its
`TypeError` or `ValueError`.  With the raw string `include_paths="x"`, a valid
argument, and `dirname=5` or `dirname=["src"]`, line 248 jumps to `finalize`,
which calls `free` on the buffer of the caller's string object: the behaviour
of the call is undefined, whatever the environment.  No engine context is
allocated on the way. -/
theorem dirname_shape_error_frees_caller_string (env : Env) :
    ((PySass_compile env []
        [("dirname", .int 5), ("include_paths", .bytes "x".toList)]).trace = [.free .object] ∧
      (PySass_compile env []
        [("dirname", .int 5), ("include_paths", .bytes "x".toList)]).ret =
        .undefined .invalid_free) ∧
    ((PySass_compile env []
        [("dirname", .seq [.bytes "src".toList]),
         ("include_paths", .bytes "x".toList)]).trace = [.free .object] ∧
      (PySass_compile env []
        [("dirname", .seq [.bytes "src".toList]),
         ("include_paths", .bytes "x".toList)]).ret = .undefined .invalid_free) :=
  ⟨⟨rfl, rfl⟩, ⟨rfl, rfl⟩⟩

/-- When `dirname` is the only source key, the optional arguments are accepted
and `include_paths` is not a string object, a value that is not a sequence
ends the call with `TypeError`, a sequence whose length is not 2 ends it with
`ValueError`, both with the message "dirname must be a (search_path,
output_path) pair" and a `NULL` result, and in both cases the trace holds no
event about an engine context. -/
theorem dirname_shape_errors (env : Env) (kwds : List (String × PyObj)) (d : PyObj)
    (o : sass_options) (paths : IncludePaths)
    (hs : PyDict_GetItemString kwds "string" = none)
    (hf : PyDict_GetItemString kwds "filename" = none)
    (hd : PyDict_GetItemString kwds "dirname" = some d)
    (hres : resolved_options kwds = some (o, paths))
    (hraw : ∀ b, PyDict_GetItemString kwds "include_paths" ≠ some (.bytes b)) :
    (PySequence_Check d = false →
      (PySass_compile env [] kwds).ret = .returned none
        (some ⟨PyExc_TypeError, .text "dirname must be a (search_path, output_path) pair"⟩) ∧
      context_events (PySass_compile env [] kwds).trace = []) ∧
    (PySequence_Check d = true → PySequence_Size d ≠ 2 →
      (PySass_compile env [] kwds).ret = .returned none
        (some ⟨PyExc_ValueError, .text "dirname must be a (search_path, output_path) pair"⟩) ∧
      context_events (PySass_compile env [] kwds).trace = []) := by
  have hone : source_keys_present kwds = 1 := by simp [source_keys_present, hs, hf, hd]
  have htrace := (compile_mode_branch env kwds o paths hone hres).1
  have hret := compile_mode_branch_ret env kwds o paths hone hres hraw
  rw [htrace, hret, hs, hf, hd]
  constructor
  · intro hseq
    simp [dispatch, hseq]
  · intro hseq hsize
    simp [dispatch, hseq, hsize]

/-- Two worked calls: `dirname=5` and `dirname=["src"]`. -/
theorem dirname_shape_errors_witness :
    ((PySass_compile example_env [] [("dirname", .int 5)]).ret =
        .returned none
          (some ⟨PyExc_TypeError, .text "dirname must be a (search_path, output_path) pair"⟩) ∧
      context_events (PySass_compile example_env [] [("dirname", .int 5)]).trace = []) ∧
    ((PySass_compile example_env [] [("dirname", .seq [.bytes "src".toList])]).ret =
        .returned none
          (some ⟨PyExc_ValueError, .text "dirname must be a (search_path, output_path) pair"⟩) ∧
      context_events
        (PySass_compile example_env [] [("dirname", .seq [.bytes "src".toList])]).trace = []) :=
  ⟨(dirname_shape_errors example_env [("dirname", .int 5)] (.int 5) default_options
      ⟨[], .literal, [], 1⟩ rfl rfl rfl rfl (fun _ h => nomatch h)).1 rfl,
   (dirname_shape_errors example_env [("dirname", .seq [.bytes "src".toList])]
      (.seq [.bytes "src".toList]) default_options ⟨[], .literal, [], 1⟩ rfl rfl rfl rfl
      (fun _ h => nomatch h)).2
      rfl (by decide)⟩

/-! ## Engine contexts (lines 176-286) -/

/-- C7: for every input and every engine, over one call the allocations of an
engine context are as many as the releases, at most one, and the events about
an engine context are none or exactly: the allocation of a context of some
mode, the call of the entry point of that mode, the release of the context of
that mode, in this order, all before the call returns. -/
theorem context_allocated_and_released_once (env : Env) (args : List PyObj)
    (kwds : List (String × PyObj)) :
    allocations (PySass_compile env args kwds).trace =
      releases (PySass_compile env args kwds).trace ∧
    allocations (PySass_compile env args kwds).trace ≤ 1 ∧
    (context_events (PySass_compile env args kwds).trace = [] ∨
      ∃ m ev, context_events (PySass_compile env args kwds).trace =
          [.new_context m, ev, .free_context m] ∧ ev.entry_point = some m) := by
  have hshape := context_events_shape env args kwds
  refine ⟨?_, ?_, hshape⟩
  · rw [← allocations_context_events, ← releases_context_events]
    rcases hshape with h | ⟨m, ev, h, hm⟩
    · rw [h]; rfl
    · rw [h]
      cases ev <;> simp [Event.entry_point] at hm <;> rfl
  · rw [← allocations_context_events]
    rcases hshape with h | ⟨m, ev, h, hm⟩
    · rw [h]; exact Nat.zero_le 1
    · rw [h]
      cases ev <;> simp [Event.entry_point] at hm <;> exact Nat.le_refl 1

/-! ## File mode (lines 203-240) -/

/-- C8: a path that cannot be read does not always end the call with its
`IOError`.  With the raw string `include_paths="x"`, a valid argument, and a
`filename` that `access` refuses, line 217 jumps to `finalize`, which calls
`free` on the buffer of the caller's string object: the behaviour of the call
is undefined.  No engine context is allocated on the way; with a readable
path the file entry point is called with that path, and the same `free`
follows. -/
theorem unreadable_file_frees_caller_string :
    ((PySass_compile example_env []
        [("filename", .bytes "/nonexistent/path.scss".toList),
         ("include_paths", .bytes "x".toList)]).trace = [.free .object] ∧
      (PySass_compile example_env []
        [("filename", .bytes "/nonexistent/path.scss".toList),
         ("include_paths", .bytes "x".toList)]).ret = .undefined .invalid_free) ∧
    ((PySass_compile example_env []
        [("filename", .bytes "style.scss".toList),
         ("include_paths", .bytes "x".toList)]).trace =
        [.new_context .filename,
         .compile_file ⟨"style.scss".toList, ⟨SASS_STYLE_NESTED, "x".toList, ".".toList⟩⟩,
         .free_context .filename, .free .object] ∧
      (PySass_compile example_env []
        [("filename", .bytes "style.scss".toList),
         ("include_paths", .bytes "x".toList)]).ret = .undefined .invalid_free) :=
  ⟨⟨rfl, rfl⟩, ⟨rfl, rfl⟩⟩

/-- When `filename` is the only source key, its value is the string `p`, the
optional arguments are accepted and `include_paths` is not a string object: if
`access(p, R_OK)` fails the call returns `NULL` with the `IOError` "filename '%s'
cannot be read" formatted with `p`, and the trace holds no event about an
engine context; if it succeeds the events about an engine context are the
allocation of a file context, the call of the file entry point with input path
`p` and the resolved options, and the release of the file context. -/
theorem filename_mode (env : Env) (kwds : List (String × PyObj)) (p : CBuf)
    (o : sass_options) (paths : IncludePaths)
    (hs : PyDict_GetItemString kwds "string" = none)
    (hf : PyDict_GetItemString kwds "filename" = some (.bytes p))
    (hd : PyDict_GetItemString kwds "dirname" = none)
    (hres : resolved_options kwds = some (o, paths))
    (hraw : ∀ b, PyDict_GetItemString kwds "include_paths" ≠ some (.bytes b)) :
    (env.access_R_OK p = false →
      (PySass_compile env [] kwds).ret = .returned none
        (some ⟨PyExc_IOError, .format_s "filename '%s' cannot be read" p⟩) ∧
      context_events (PySass_compile env [] kwds).trace = []) ∧
    (env.access_R_OK p = true →
      context_events (PySass_compile env [] kwds).trace =
        [.new_context .filename, .compile_file ⟨p, o⟩, .free_context .filename]) := by
  have hone : source_keys_present kwds = 1 := by simp [source_keys_present, hs, hf, hd]
  have htrace := (compile_mode_branch env kwds o paths hone hres).1
  have hret := compile_mode_branch_ret env kwds o paths hone hres hraw
  rw [htrace, hret, hs, hf, hd]
  constructor
  · intro hacc
    simp [dispatch, hacc]
  · intro hacc
    simp [dispatch, hacc]

/-- Two worked calls: a path that cannot be read and one that can. -/
theorem filename_mode_witness :
    ((PySass_compile example_env [] [("filename", .bytes "/nonexistent/path.scss".toList)]).ret =
      .returned none (some ⟨PyExc_IOError,
        .format_s "filename '%s' cannot be read" "/nonexistent/path.scss".toList⟩) ∧
     context_events (PySass_compile example_env []
        [("filename", .bytes "/nonexistent/path.scss".toList)]).trace = []) ∧
    context_events
        (PySass_compile example_env [] [("filename", .bytes "style.scss".toList)]).trace =
      [.new_context .filename, .compile_file ⟨"style.scss".toList, default_options⟩,
       .free_context .filename] :=
  ⟨(filename_mode example_env [("filename", .bytes "/nonexistent/path.scss".toList)]
      "/nonexistent/path.scss".toList default_options ⟨[], .literal, [], 1⟩
      rfl rfl rfl rfl (fun _ h => nomatch h)).1 (by decide),
   (filename_mode example_env [("filename", .bytes "style.scss".toList)]
      "style.scss".toList default_options ⟨[], .literal, [], 1⟩ rfl rfl rfl rfl
      (fun _ h => nomatch h)).2 (by decide)⟩

/-! ## Engine results (lines 189-201, 226-239, 261-274) -/

/-- C9: a failure of the engine does not always end the call with
`sass.CompileError`.  With the raw string `include_paths="x"`, a valid argument,
and the folder `badsrc`, on which the engine reports status 1 with the message
`boom`, the call releases the folder context and goes on to `finalize`, which
calls `free` on the buffer of the caller's string object: the behaviour of the
call is undefined. -/
theorem engine_failure_frees_caller_string :
    (PySass_compile example_env []
        [("dirname", .seq [.bytes "badsrc".toList, .bytes "out".toList]),
         ("include_paths", .bytes "x".toList)]).trace =
      [.new_context .dirname,
       .compile_folder ⟨some "badsrc".toList, some "out".toList,
         ⟨SASS_STYLE_NESTED, "x".toList, ".".toList⟩⟩,
       .free_context .dirname, .free .object] ∧
    Event.reply example_env
        (.compile_folder ⟨some "badsrc".toList, some "out".toList,
          ⟨SASS_STYLE_NESTED, "x".toList, ".".toList⟩⟩) = some (1, "boom".toList) ∧
    (PySass_compile example_env []
        [("dirname", .seq [.bytes "badsrc".toList, .bytes "out".toList]),
         ("include_paths", .bytes "x".toList)]).ret = .undefined .invalid_free :=
  ⟨rfl, rfl, rfl⟩

/-- Whenever a call of `PySass_compile` whose `include_paths` is not a string
object calls an engine entry point and the engine reports a non-zero status
with the message `m`, in any of the three modes, the call returns `NULL` with
`sass.CompileError` and the message `m`, and with no other error. -/
theorem engine_failure_raises_CompileError (env : Env) (args : List PyObj)
    (kwds : List (String × PyObj)) (ev : Event) (status : Int) (m : CBuf)
    (hev : ev ∈ (PySass_compile env args kwds).trace)
    (hreply : ev.reply env = some (status, m)) (hst : status ≠ 0)
    (hraw : ∀ b, PyDict_GetItemString kwds "include_paths" ≠ some (.bytes b)) :
    (PySass_compile env args kwds).ret =
      .returned none (some ⟨PySass_CompileError, .buffer m⟩) := by
  have hc : ev.is_context = true := by
    cases ev <;> simp [Event.reply] at hreply <;> rfl
  obtain ⟨-, -, o, paths, hres, hmem, hret⟩ := context_event_of_compile env args kwds ev hev hc
  obtain ⟨k1, -, -, h2, -, -⟩ := resolved_options_spec kwds o paths hres
  rw [hret, finalize_ret_of_block _ k1 paths _ h2 hraw]
  rcases dispatch_shape env (PyDict_GetItemString kwds "string")
    (PyDict_GetItemString kwds "filename") (PyDict_GetItemString kwds "dirname") o with h | h
  · rw [h] at hmem; cases hmem
  · obtain ⟨mode, ev1, hshape, -, -, hfail⟩ := h
    rw [hshape] at hmem
    simp only [List.mem_cons, List.mem_singleton, List.not_mem_nil, or_false] at hmem
    rcases hmem with rfl | rfl | rfl
    · simp [Event.reply] at hreply
    · exact hfail status m hreply hst
    · simp [Event.reply] at hreply

/-- A worked call: the folder `badsrc`, on which the engine fails with `boom`. -/
theorem engine_failure_raises_CompileError_witness :
    (PySass_compile example_env []
        [("dirname", .seq [.bytes "badsrc".toList, .bytes "out".toList])]).ret =
      .returned none (some ⟨PySass_CompileError, .buffer "boom".toList⟩) :=
  engine_failure_raises_CompileError example_env []
    [("dirname", .seq [.bytes "badsrc".toList, .bytes "out".toList])]
    (.compile_folder ⟨some "badsrc".toList, some "out".toList, default_options⟩) 1 "boom".toList
    (List.Mem.tail _ (List.Mem.head _)) rfl (by decide) (fun _ h => nomatch h)

/-- C10: a success of the engine does not always end the call with its result.
With the raw string `include_paths="inc"`, a valid argument, each of the three
modes calls its entry point with the arguments the claim names and, whatever
the engine answers, goes on to `finalize`, which calls `free` on the buffer of
the caller's string object: the behaviour of the call is undefined, where
without `include_paths` the same string call returns the text `b` that the
engine of the worked environment puts out. -/
theorem engine_success_frees_caller_string (env : Env) :
    ((PySass_compile env []
        [("string", .bytes "b".toList), ("include_paths", .bytes "inc".toList)]).trace =
        [.new_context .string,
         .compile_string ⟨"b".toList, ⟨SASS_STYLE_NESTED, "inc".toList, ".".toList⟩⟩,
         .free_context .string, .free .object] ∧
      (PySass_compile env []
        [("string", .bytes "b".toList), ("include_paths", .bytes "inc".toList)]).ret =
        .undefined .invalid_free) ∧
    ((PySass_compile example_env []
        [("filename", .bytes "style.scss".toList),
         ("include_paths", .bytes "inc".toList)]).trace =
        [.new_context .filename,
         .compile_file ⟨"style.scss".toList, ⟨SASS_STYLE_NESTED, "inc".toList, ".".toList⟩⟩,
         .free_context .filename, .free .object] ∧
      (PySass_compile example_env []
        [("filename", .bytes "style.scss".toList),
         ("include_paths", .bytes "inc".toList)]).ret = .undefined .invalid_free) ∧
    ((PySass_compile env []
        [("dirname", .seq [.bytes "src".toList, .bytes "out".toList]),
         ("include_paths", .bytes "inc".toList)]).trace =
        [.new_context .dirname,
         .compile_folder ⟨some "src".toList, some "out".toList,
           ⟨SASS_STYLE_NESTED, "inc".toList, ".".toList⟩⟩,
         .free_context .dirname, .free .object] ∧
      (PySass_compile env []
        [("dirname", .seq [.bytes "src".toList, .bytes "out".toList]),
         ("include_paths", .bytes "inc".toList)]).ret = .undefined .invalid_free) ∧
    (PySass_compile example_env [] [("string", .bytes "b".toList)]).ret =
      .returned (some (.bytes "b".toList)) none :=
  ⟨⟨rfl, rfl⟩, ⟨rfl, rfl⟩, ⟨rfl, rfl⟩, rfl⟩

/-- For a call whose optional arguments are accepted, whose `include_paths` is
not a string object and on which the engine reports status 0: with `string`
the only source key and a string value, the call returns the C string of the
output of the string entry point applied to that value; with `filename` the
only source key and a readable path, it returns the C string of the output of
the file entry point applied to that path; with `dirname` the only source key
and a sequence of two strings, it returns `None` after calling the folder
entry point with elements 0 and 1 as search and output path.  In each case the
entry point of that mode is the only one called, once, between the allocation
and the release of its context. -/
theorem engine_success_results (env : Env) (kwds : List (String × PyObj))
    (o : sass_options) (paths : IncludePaths)
    (hres : resolved_options kwds = some (o, paths))
    (hraw : ∀ b, PyDict_GetItemString kwds "include_paths" ≠ some (.bytes b)) :
    (∀ content, PyDict_GetItemString kwds "string" = some (.bytes content) →
      PyDict_GetItemString kwds "filename" = none →
      PyDict_GetItemString kwds "dirname" = none →
      (env.sass_compile ⟨content, o⟩).error_status = 0 →
      (PySass_compile env [] kwds).ret =
        .returned (some (.bytes (c_str (env.sass_compile ⟨content, o⟩).output_string))) none ∧
      context_events (PySass_compile env [] kwds).trace =
        [.new_context .string, .compile_string ⟨content, o⟩, .free_context .string]) ∧
    (∀ p, PyDict_GetItemString kwds "string" = none →
      PyDict_GetItemString kwds "filename" = some (.bytes p) →
      PyDict_GetItemString kwds "dirname" = none →
      env.access_R_OK p = true →
      (env.sass_compile_file ⟨p, o⟩).error_status = 0 →
      (PySass_compile env [] kwds).ret =
        .returned (some (.bytes (c_str (env.sass_compile_file ⟨p, o⟩).output_string))) none ∧
      context_events (PySass_compile env [] kwds).trace =
        [.new_context .filename, .compile_file ⟨p, o⟩, .free_context .filename]) ∧
    (∀ d search_path output_path, PyDict_GetItemString kwds "string" = none →
      PyDict_GetItemString kwds "filename" = none →
      PyDict_GetItemString kwds "dirname" = some d →
      PySequence_Check d = true → PySequence_Size d = 2 →
      PySequence_GetItem env.PY_MAJOR_VERSION d 0 = some (.bytes search_path) →
      PySequence_GetItem env.PY_MAJOR_VERSION d 1 = some (.bytes output_path) →
      (env.sass_compile_folder ⟨some search_path, some output_path, o⟩).error_status = 0 →
      (PySass_compile env [] kwds).ret = .returned (some .none) none ∧
      context_events (PySass_compile env [] kwds).trace =
        [.new_context .dirname, .compile_folder ⟨some search_path, some output_path, o⟩,
         .free_context .dirname]) := by
  refine ⟨?_, ?_, ?_⟩
  · intro content hs hf hd hst
    have hone : source_keys_present kwds = 1 := by simp [source_keys_present, hs, hf, hd]
    have htrace := (compile_mode_branch env kwds o paths hone hres).1
    have hret := compile_mode_branch_ret env kwds o paths hone hres hraw
    rw [htrace, hret, hs, hf, hd]
    simp [dispatch, hst, PyBytes_FromString, c_str]
  · intro p hs hf hd hacc hst
    have hone : source_keys_present kwds = 1 := by simp [source_keys_present, hs, hf, hd]
    have htrace := (compile_mode_branch env kwds o paths hone hres).1
    have hret := compile_mode_branch_ret env kwds o paths hone hres hraw
    rw [htrace, hret, hs, hf, hd]
    simp [dispatch, hacc, hst, PyBytes_FromString, c_str]
  · intro d sp op hs hf hd hseq hsize h0 h1 hst
    have hone : source_keys_present kwds = 1 := by simp [source_keys_present, hs, hf, hd]
    have htrace := (compile_mode_branch env kwds o paths hone hres).1
    have hret := compile_mode_branch_ret env kwds o paths hone hres hraw
    rw [htrace, hret, hs, hf, hd]
    simp [dispatch, hseq, hsize, h0, h1, PyBytes_AsString, hst]

/-- Three worked calls, one in each mode, on which the engine succeeds. -/
theorem engine_success_results_witness :
    ((PySass_compile example_env [] [("string", .bytes "a".toList)]).ret =
        .returned (some (.bytes "a".toList)) none ∧
      context_events (PySass_compile example_env [] [("string", .bytes "a".toList)]).trace =
        [.new_context .string, .compile_string ⟨"a".toList, default_options⟩,
         .free_context .string]) ∧
    ((PySass_compile example_env [] [("filename", .bytes "style.scss".toList)]).ret =
        .returned (some (.bytes "style.scss".toList)) none ∧
      context_events
          (PySass_compile example_env [] [("filename", .bytes "style.scss".toList)]).trace =
        [.new_context .filename, .compile_file ⟨"style.scss".toList, default_options⟩,
         .free_context .filename]) ∧
    ((PySass_compile example_env []
          [("dirname", .seq [.bytes "src".toList, .bytes "out".toList])]).ret =
        .returned (some .none) none ∧
      context_events (PySass_compile example_env []
          [("dirname", .seq [.bytes "src".toList, .bytes "out".toList])]).trace =
        [.new_context .dirname,
         .compile_folder ⟨some "src".toList, some "out".toList, default_options⟩,
         .free_context .dirname]) :=
  ⟨(engine_success_results example_env [("string", .bytes "a".toList)] default_options
      ⟨[], .literal, [], 1⟩ rfl (fun _ h => nomatch h)).1 "a".toList rfl rfl rfl rfl,
   (engine_success_results example_env [("filename", .bytes "style.scss".toList)] default_options
      ⟨[], .literal, [], 1⟩ rfl (fun _ h => nomatch h)).2.1 "style.scss".toList rfl rfl rfl
      (by decide) rfl,
   (engine_success_results example_env
      [("dirname", .seq [.bytes "src".toList, .bytes "out".toList])] default_options
      ⟨[], .literal, [], 1⟩ rfl (fun _ h => nomatch h)).2.2 (.seq [.bytes "src".toList, .bytes "out".toList])
      "src".toList "out".toList rfl rfl rfl rfl rfl rfl rfl (by decide)⟩

/-! ## The options handed to the engine (lines 85-187) -/

/-- C11, as stated, fails on a sequence with a segment that holds a NUL byte:
for `include_paths=["x\0y", "z"]` in file mode the bytes handed to the engine
are `x`, NUL, NUL, `:`, `z`; neither these bytes nor the C string in them is
the `:`-join of the segments. -/
theorem engine_options_NUL_counterexample :
    context_events (PySass_compile example_env []
        [("filename", .bytes "style.scss".toList),
         ("include_paths", .seq [.bytes ['x', NUL, 'y'], .bytes "z".toList])]).trace =
      [.new_context .filename,
       .compile_file ⟨"style.scss".toList,
         ⟨SASS_STYLE_NESTED, ['x', NUL, NUL, COLON, 'z'], ".".toList⟩⟩,
       .free_context .filename] ∧
    ['x', NUL, NUL, COLON, 'z'] ≠ List.intercalate [COLON] [['x', NUL, 'y'], "z".toList] ∧
    c_str ['x', NUL, NUL, COLON, 'z'] ≠ List.intercalate [COLON] [['x', NUL, 'y'], "z".toList] :=
  ⟨rfl, by decide, by decide⟩

/-- C11, amended: the options of every engine call of a call, in any mode, are
the style the output-style block resolved (`SASS_STYLE_NESTED` when
`output_style` is absent or `None`); for the include paths the empty string
when `include_paths` is absent or `None`, the given string unchanged when it is
a string, and the `:`-join of the segments when it is a sequence of strings
none of which holds a NUL byte; for the image path `"."` when `image_path` is
absent or `None` and the given string unchanged otherwise. -/
theorem engine_options (env : Env) (args : List PyObj) (kwds : List (String × PyObj))
    (ev : Event) (o : sass_options)
    (hev : ev ∈ (PySass_compile env args kwds).trace) (ho : ev.options = some o) :
    (∃ k, output_style_block (PyDict_GetItemString kwds "output_style") 1 =
      .ok (o.output_style, k)) ∧
    ((PyDict_GetItemString kwds "output_style" = none ∨
        PyDict_GetItemString kwds "output_style" = some .none) →
      o.output_style = SASS_STYLE_NESTED) ∧
    ((PyDict_GetItemString kwds "include_paths" = none ∨
        PyDict_GetItemString kwds "include_paths" = some .none) →
      o.include_paths = []) ∧
    (∀ b, PyDict_GetItemString kwds "include_paths" = some (.bytes b) → o.include_paths = b) ∧
    (∀ segs : List CBuf,
      PyDict_GetItemString kwds "include_paths" = some (.seq (segs.map PyObj.bytes)) →
      (∀ s ∈ segs, NUL ∉ s) → o.include_paths = List.intercalate [COLON] segs) ∧
    ((PyDict_GetItemString kwds "image_path" = none ∨
        PyDict_GetItemString kwds "image_path" = some .none) →
      o.image_path = ".".toList) ∧
    (∀ b, PyDict_GetItemString kwds "image_path" = some (.bytes b) → o.image_path = b) := by
  obtain ⟨paths, hres⟩ := options_of_engine_call env args kwds ev o hev ho
  obtain ⟨k1, k3, h1, h2, h3, h4⟩ := resolved_options_spec kwds o paths hres
  refine ⟨⟨k1, h1⟩, ?_, ?_, ?_, ?_, ?_, ?_⟩
  · rintro (h | h) <;> rw [h] at h1 <;>
      simp only [output_style_block, Step.ok.injEq, Prod.mk.injEq] at h1 <;>
      exact h1.1.symm
  · rintro (h | h) <;> rw [h] at h2 <;> simp only [include_paths_block] at h2 <;>
      cases h2 <;> exact h4
  · intro b h
    rw [h] at h2
    simp only [include_paths_block] at h2
    cases h2
    exact h4
  · intro segs h hnul
    rw [h] at h2
    simp only [include_paths_block, join_bytes, written_of_no_NUL segs hnul] at h2
    cases h2
    exact h4
  · rintro (h | h) <;> rw [h] at h3 <;>
      simp only [image_path_block, Step.ok.injEq, Prod.mk.injEq] at h3 <;>
      exact h3.1.symm
  · intro b h
    rw [h] at h3
    simp only [image_path_block, Step.ok.injEq, Prod.mk.injEq] at h3
    exact h3.1.symm

/-- A worked call: a string compiled with all three optional arguments given,
the include paths as the list `["a", "b"]`. -/
theorem engine_options_witness :
    (⟨SASS_STYLE_EXPANDED, "a:b".toList, "img".toList⟩ : sass_options).include_paths =
      List.intercalate [COLON] ["a".toList, "b".toList] :=
  (engine_options example_env []
      [("string", .bytes "x".toList), ("output_style", .bytes "expanded".toList),
       ("include_paths", .seq (["a".toList, "b".toList].map PyObj.bytes)),
       ("image_path", .bytes "img".toList)]
      (.compile_string ⟨"x".toList, ⟨SASS_STYLE_EXPANDED, "a:b".toList, "img".toList⟩⟩)
      ⟨SASS_STYLE_EXPANDED, "a:b".toList, "img".toList⟩
      (List.Mem.tail _ (List.Mem.tail _ (List.Mem.head _))) rfl).2.2.2.2.1
    ["a".toList, "b".toList] rfl (by decide)

/-! ## The order of the checks (lines 54-249) -/

/-- The checks the code makes are made in the order of the source, and the
first that fails ends the call with its own error: positional arguments, then
the source keys, then the output-style block, the include-path block and the
image-path block; when all pass, the call ends as its mode branch does. -/
theorem validation_order (env : Env) (args : List PyObj) (kwds : List (String × PyObj)) :
    (args ≠ [] →
      (PySass_compile env args kwds).ret = .returned none (some keywords_only_error)) ∧
    (source_keys_present kwds = 1 →
      ∀ e, output_style_block (PyDict_GetItemString kwds "output_style") 1 = .fail e →
        (PySass_compile env [] kwds).ret = .returned none (some e)) ∧
    (source_keys_present kwds = 1 →
      ∀ v k1 e, output_style_block (PyDict_GetItemString kwds "output_style") 1 = .ok (v, k1) →
        include_paths_block (PyDict_GetItemString kwds "include_paths") k1 = .fail e →
        (PySass_compile env [] kwds).ret = .returned none (some e)) ∧
    (source_keys_present kwds = 1 →
      ∀ v k1 paths e,
        output_style_block (PyDict_GetItemString kwds "output_style") 1 = .ok (v, k1) →
        include_paths_block (PyDict_GetItemString kwds "include_paths") k1 = .ok paths →
        image_path_block (PyDict_GetItemString kwds "image_path") paths.expected_kwds = .fail e →
        (PySass_compile env [] kwds).ret = .returned none (some e)) := by
  refine ⟨?_, ?_, ?_, ?_⟩
  · intro h
    cases args with
    | nil => exact absurd rfl h
    | cons a rest => simp [PySass_compile, keywords_only_error]
  all_goals
    intro hone
    cases kwds with
    | nil => simp [source_keys_present, PyDict_GetItemString] at hone
    | cons kv rest =>
      simp only [source_keys_present] at hone
      simp only [PySass_compile]
      generalize PyDict_GetItemString (kv :: rest) "string" = s at hone ⊢
      generalize PyDict_GetItemString (kv :: rest) "filename" = f at hone ⊢
      generalize PyDict_GetItemString (kv :: rest) "dirname" = d at hone ⊢
      intros
      cases s <;> cases f <;> cases d <;> simp at hone <;> simp [*]

/-- C12: an unknown output-style name is not always the error reported.  With
`output_style="comp"`, which is none of the four names, and an `image_path` or
an `include_paths` that is not a string, the call reports the `TypeError` of
the later argument, not the `ValueError` of `output_style`, whatever the
environment; and with `dirname=(1, 2)`, whose shape is wrong, and nothing else
wrong, the call reports no error of the checks at all when the engine
succeeds. -/
theorem unknown_style_not_reported_first (env : Env) :
    (PySass_compile env []
        [("string", .bytes "a".toList), ("output_style", .bytes "comp".toList),
         ("image_path", .int 5)]).ret =
      .returned none (some ⟨PyExc_TypeError, .text "image_path must be a string"⟩) ∧
    (PySass_compile env []
        [("string", .bytes "a".toList), ("output_style", .bytes "comp".toList),
         ("include_paths", .int 5)]).ret =
      .returned none (some ⟨PyExc_TypeError,
        .text "include_paths must be a list or a colon-separated string"⟩) ∧
    (PySass_compile example_env [] [("dirname", .seq [.int 1, .int 2])]).ret =
      .returned (some .none) (some ⟨PyExc_TypeError, .api⟩) :=
  ⟨rfl, rfl, rfl⟩

/-! ## Elements of the include paths (lines 122-162) -/

theorem size_loop_first_non_string (segs : List CBuf) (x : PyObj) (post : List PyObj)
    (hx : PyBytes_Check x = false) (i acc : Nat) :
    size_loop (segs.map PyObj.bytes ++ x :: post) i acc =
      .fail ⟨PyExc_TypeError,
        .format_zd "include_paths must consists of only strings, but #%zd is not a string"
          (i + segs.length)⟩ := by
  induction segs generalizing i acc with
  | nil => simp [size_loop, hx]
  | cons s rest ih =>
    simp only [List.map_cons, List.cons_append]
    rw [size_loop]
    simp only [PyBytes_Check, Bool.not_true, Bool.false_eq_true, if_false, List.length_cons]
    rw [ih]
    congr 3
    omega

/-- C13: in a call with one source key whose output style is accepted, an
`include_paths` sequence whose first element that is not a string stands at
index `i` (strings before it, anything after it) ends the call with the
`TypeError` whose message is formatted with `i`, and an `include_paths` that is
neither `None`, a string nor a sequence ends it with the `TypeError` "include_paths
must be a list or a colon-separated string"; in both cases the trace is empty:
no engine call is made. -/
theorem include_paths_element_errors (env : Env) (kwds : List (String × PyObj))
    (v : OutputStyle) (k1 : Nat)
    (hone : source_keys_present kwds = 1)
    (hstyle : output_style_block (PyDict_GetItemString kwds "output_style") 1 = .ok (v, k1)) :
    (∀ (segs : List CBuf) (x : PyObj) (post : List PyObj),
      PyBytes_Check x = false →
      PyDict_GetItemString kwds "include_paths" =
        some (.seq (segs.map PyObj.bytes ++ x :: post)) →
      (PySass_compile env [] kwds).trace = [] ∧
      (PySass_compile env [] kwds).ret = .returned none (some ⟨PyExc_TypeError,
        .format_zd "include_paths must consists of only strings, but #%zd is not a string"
          segs.length⟩)) ∧
    (∀ n : Int, PyDict_GetItemString kwds "include_paths" = some (.int n) →
      (PySass_compile env [] kwds).trace = [] ∧
      (PySass_compile env [] kwds).ret = .returned none (some ⟨PyExc_TypeError,
        .text "include_paths must be a list or a colon-separated string"⟩)) := by
  have key : ∀ e, include_paths_block (PyDict_GetItemString kwds "include_paths") k1 = .fail e →
      (PySass_compile env [] kwds).trace = [] ∧
      (PySass_compile env [] kwds).ret = .returned none (some e) := by
    intro e he
    cases kwds with
    | nil => simp [source_keys_present, PyDict_GetItemString] at hone
    | cons kv rest =>
      simp only [source_keys_present] at hone
      simp only [PySass_compile]
      generalize PyDict_GetItemString (kv :: rest) "string" = s at hone ⊢
      generalize PyDict_GetItemString (kv :: rest) "filename" = f at hone ⊢
      generalize PyDict_GetItemString (kv :: rest) "dirname" = d at hone ⊢
      cases s <;> cases f <;> cases d <;> simp at hone <;> simp [hstyle, he]
  constructor
  · intro segs x post hx hkey
    apply key
    rw [hkey]
    have := size_loop_first_non_string segs x post hx 0 0
    simp only [Nat.zero_add] at this
    simp only [include_paths_block, join, this]
  · intro n hkey
    apply key
    rw [hkey]
    rfl

/-- Two worked calls: `include_paths=["a", 5, None]` and `include_paths=5`. -/
theorem include_paths_element_errors_witness :
    ((PySass_compile example_env []
        [("string", .bytes "x".toList),
         ("include_paths", .seq (["a".toList].map PyObj.bytes ++ PyObj.int 5 :: [PyObj.none]))]).trace = [] ∧
      (PySass_compile example_env []
        [("string", .bytes "x".toList),
         ("include_paths", .seq (["a".toList].map PyObj.bytes ++ PyObj.int 5 :: [PyObj.none]))]).ret =
        .returned none (some ⟨PyExc_TypeError,
          .format_zd "include_paths must consists of only strings, but #%zd is not a string"
            ["a".toList].length⟩)) ∧
    ((PySass_compile example_env []
        [("string", .bytes "x".toList), ("include_paths", .int 5)]).trace = [] ∧
      (PySass_compile example_env []
        [("string", .bytes "x".toList), ("include_paths", .int 5)]).ret =
        .returned none (some ⟨PyExc_TypeError,
          .text "include_paths must be a list or a colon-separated string"⟩)) :=
  ⟨(include_paths_element_errors example_env
      [("string", .bytes "x".toList),
       ("include_paths", .seq (["a".toList].map PyObj.bytes ++ PyObj.int 5 :: [PyObj.none]))]
      SASS_STYLE_NESTED 1 (by decide) rfl).1 ["a".toList] (.int 5) [.none] rfl rfl,
   (include_paths_element_errors example_env
      [("string", .bytes "x".toList), ("include_paths", .int 5)]
      SASS_STYLE_NESTED 1 (by decide) rfl).2 5 rfl⟩

/-! ## Failures of the checks (lines 54-261) -/

/-- A mode branch that touched an engine context ends with `sass.CompileError`
or with a result. -/
theorem dispatch_ret_of_events (env : Env) (s f d : Option PyObj) (o : sass_options)
    (h : (dispatch env s f d o).1 ≠ []) :
    (∃ m, (dispatch env s f d o).2 = .returned none (some ⟨PySass_CompileError, .buffer m⟩)) ∨
    ∃ r p, (dispatch env s f d o).2 = .returned (some r) p := by
  unfold dispatch at h ⊢
  split
  · split
    · simp only
      split
      · exact Or.inl ⟨_, rfl⟩
      · exact Or.inr ⟨_, _, rfl⟩
    · simp at h
  · split
    · split
      · simp_all
      · simp only
        split
        · exact Or.inl ⟨_, rfl⟩
        · exact Or.inr ⟨_, _, rfl⟩
    · simp at h
  · split
    · simp_all
    · simp only
      split
      · exact Or.inl ⟨_, rfl⟩
      · exact Or.inr ⟨_, _, rfl⟩
  · simp at h

/-- C14: whenever a call returns `NULL` with a `TypeError` or a `ValueError`, the
exceptions of the checks on the arguments (a value of `string` or `filename`
that is not a string included), its trace holds no event about an engine
context: none was allocated and no entry point was called. -/
theorem check_failure_touches_no_context (env : Env) (args : List PyObj)
    (kwds : List (String × PyObj)) (e : PyErr)
    (hret : (PySass_compile env args kwds).ret = .returned none (some e))
    (hexc : e.exc = PyExc_TypeError ∨ e.exc = PyExc_ValueError) :
    context_events (PySass_compile env args kwds).trace = [] := by
  by_contra hne
  obtain ⟨rfl, hone, o, paths, hres⟩ := compile_reaches env args kwds hne
  obtain ⟨htrace, hret2⟩ := compile_mode_branch env kwds o paths hone hres
  rw [htrace] at hne
  rw [hret2] at hret
  rcases finalize_ret_cases (PyDict_GetItemString kwds "include_paths") paths.storage
    (dispatch env (PyDict_GetItemString kwds "string") (PyDict_GetItemString kwds "filename")
      (PyDict_GetItemString kwds "dirname") o).2 with hfin | hfin
  · rw [hfin] at hret
    rcases dispatch_ret_of_events env _ _ _ o hne with ⟨m, hm⟩ | ⟨r, p, hr⟩
    · rw [hm] at hret
      simp only [Ret.returned.injEq, Option.some.injEq, true_and] at hret
      subst hret
      rcases hexc with h | h <;> cases h
    · rw [hr] at hret
      simp at hret
  · rw [hfin] at hret
    cases hret

/-- Two worked calls: `string=5`, and an output style that is no style name. -/
theorem check_failure_touches_no_context_witness :
    context_events (PySass_compile example_env [] [("string", .int 5)]).trace = [] ∧
    context_events (PySass_compile example_env []
      [("filename", .bytes "style.scss".toList), ("output_style", .bytes "foo".toList)]).trace =
      [] :=
  ⟨check_failure_touches_no_context example_env [] [("string", .int 5)]
      ⟨PyExc_TypeError, .text "string must be a string"⟩ rfl (Or.inl rfl),
   check_failure_touches_no_context example_env []
      [("filename", .bytes "style.scss".toList), ("output_style", .bytes "foo".toList)]
      ⟨PyExc_ValueError, .text "invalid output_style option"⟩ rfl (Or.inr rfl)⟩

/-! ## The include-path buffer on the paths through `finalize` -/

theorem dispatch_buffer_events (env : Env) (s f d : Option PyObj) (o : sass_options) :
    buffer_allocations (dispatch env s f d o).1 = 0 ∧
    buffer_releases (dispatch env s f d o).1 = [] := by
  rcases dispatch_shape env s f d o with h | ⟨m, ev, h, hm, -, -⟩
  · rw [h]; exact ⟨rfl, rfl⟩
  · rw [h]
    cases ev <;> simp [Event.entry_point] at hm <;> exact ⟨rfl, rfl⟩

/-- On every path that reaches the mode branch, and so `finalize`, a sequence
of strings has its buffer allocated once and released once, and an absent or
`None` `include_paths` has no buffer allocated and none released. -/
theorem buffer_balanced_through_finalize (env : Env) (kwds : List (String × PyObj))
    (o : sass_options) (paths : IncludePaths)
    (hone : source_keys_present kwds = 1)
    (hres : resolved_options kwds = some (o, paths)) :
    (∀ segs : List CBuf,
      PyDict_GetItemString kwds "include_paths" = some (.seq (segs.map PyObj.bytes)) →
      buffer_allocations (PySass_compile env [] kwds).trace = 1 ∧
      buffer_releases (PySass_compile env [] kwds).trace = [.heap]) ∧
    ((PyDict_GetItemString kwds "include_paths" = none ∨
        PyDict_GetItemString kwds "include_paths" = some .none) →
      buffer_allocations (PySass_compile env [] kwds).trace = 0 ∧
      buffer_releases (PySass_compile env [] kwds).trace = []) := by
  obtain ⟨k1, k3, -, h2, -, -⟩ := resolved_options_spec kwds o paths hres
  have hd := dispatch_buffer_events env (PyDict_GetItemString kwds "string")
    (PyDict_GetItemString kwds "filename") (PyDict_GetItemString kwds "dirname") o
  rw [compile_of_resolved env kwds o paths hone hres]
  simp only [buffer_allocations, buffer_releases, List.filter_append, List.filterMap_append,
    List.length_append] at hd ⊢
  rw [hd.1, hd.2]
  constructor
  · intro segs hkey
    rw [hkey] at h2 ⊢
    simp only [include_paths_block, join_bytes, Step.ok.injEq] at h2
    subst h2
    simp [finalize, PySequence_Check]
  · rintro (hkey | hkey) <;> rw [hkey] at h2 ⊢ <;>
      simp only [include_paths_block, Step.ok.injEq] at h2 <;> subst h2 <;>
      simp [finalize, PySequence_Check]

/-! ## Ownership of the include-path buffer (lines 115-174, 281-286) -/

/-- C15: the include-path buffer is not always released once, and a string of
the caller is freed.  With `include_paths=["x"]` and an `image_path` that is not
a string, the call allocates the buffer and returns at line 173 without
releasing it; with the raw string `include_paths="x"` no buffer is allocated
and `free` is called on the buffer of the caller's string object.  Both hold
whatever the environment. -/
theorem include_paths_buffer_mismanaged (env : Env) :
    ((PySass_compile env []
        [("string", .bytes "a".toList), ("include_paths", .seq [.bytes "x".toList]),
         ("image_path", .int 5)]).trace = [.malloc 2] ∧
      buffer_allocations (PySass_compile env []
        [("string", .bytes "a".toList), ("include_paths", .seq [.bytes "x".toList]),
         ("image_path", .int 5)]).trace = 1 ∧
      buffer_releases (PySass_compile env []
        [("string", .bytes "a".toList), ("include_paths", .seq [.bytes "x".toList]),
         ("image_path", .int 5)]).trace = []) ∧
    ((PySass_compile env []
        [("string", .bytes "a".toList), ("include_paths", .bytes "x".toList)]).trace =
        [.new_context .string,
         .compile_string ⟨"a".toList, ⟨SASS_STYLE_NESTED, "x".toList, ".".toList⟩⟩,
         .free_context .string, .free .object] ∧
      buffer_allocations (PySass_compile env []
        [("string", .bytes "a".toList), ("include_paths", .bytes "x".toList)]).trace = 0 ∧
      buffer_releases (PySass_compile env []
        [("string", .bytes "a".toList), ("include_paths", .bytes "x".toList)]).trace =
        [.object]) :=
  ⟨⟨rfl, rfl, rfl⟩, ⟨rfl, rfl, rfl⟩⟩

/-! ## The counter `expected_kwds` -/

theorem output_style_block_count (x : Option PyObj) (k k' : Nat) :
    (output_style_block x k).map Prod.fst = (output_style_block x k').map Prod.fst := by
  unfold output_style_block
  split
  · rfl
  · rfl
  · simp only
    split
    · split <;> rfl
    · rfl
  · rfl

theorem include_paths_block_count (x : Option PyObj) (k k' : Nat) :
    (include_paths_block x k).map IncludePaths.without_count =
      (include_paths_block x k').map IncludePaths.without_count := by
  unfold include_paths_block
  split
  · rfl
  · rfl
  · rfl
  · split <;> rfl
  · rfl

theorem image_path_block_count (x : Option PyObj) (k k' : Nat) :
    (image_path_block x k).map Prod.fst = (image_path_block x k').map Prod.fst := by
  unfold image_path_block
  split <;> rfl

theorem image_path_block_value (x : Option PyObj) (k k' : Nat) (v : CBuf) (c : Nat)
    (h : image_path_block x k = .ok (v, c)) :
    ∃ c', image_path_block x k' = .ok (v, c') := by
  have hc := image_path_block_count x k k'
  rw [h] at hc
  cases hb : image_path_block x k' with
  | ok a =>
    rw [hb] at hc
    simp only [Step.map, Step.ok.injEq] at hc
    exact ⟨a.2, by rw [hc]⟩
  | fail e => rw [hb] at hc; simp [Step.map] at hc
  | undefined u => rw [hb] at hc; simp [Step.map] at hc

/-! ## A list of include paths and its join (lines 115-156) -/

/-- C16, as stated, fails on a segment that holds a NUL byte, whether what
reaches the engine is taken to be the bytes of the buffer or the C string in
it: with the list `["a\0b"]` the engine is handed `a`, NUL, NUL and with the
string `"a\0b"` it is handed `a`, NUL, `b`, so the options differ; and the C
string in the buffer of the raw string `"a\0b"` is `a`, not the string
given. -/
theorem list_or_joined_string_NUL_counterexample :
    context_events (PySass_compile example_env []
        [("string", .bytes "x".toList), ("include_paths", .seq [.bytes ['a', NUL, 'b']])]).trace =
      [.new_context .string,
       .compile_string ⟨"x".toList, ⟨SASS_STYLE_NESTED, ['a', NUL, NUL], ".".toList⟩⟩,
       .free_context .string] ∧
    context_events (PySass_compile example_env []
        [("string", .bytes "x".toList),
         ("include_paths", .bytes (List.intercalate [COLON] [['a', NUL, 'b']]))]).trace =
      [.new_context .string,
       .compile_string ⟨"x".toList, ⟨SASS_STYLE_NESTED, ['a', NUL, 'b'], ".".toList⟩⟩,
       .free_context .string] ∧
    ['a', NUL, NUL] ≠ ['a', NUL, 'b'] ∧
    c_str ['a', NUL, 'b'] ≠ ['a', NUL, 'b'] :=
  ⟨rfl, rfl, by decide, by decide⟩

/-- C16, amended: for every list `segs` of strings none of which holds a NUL
byte and every valid call `kA` with `include_paths = segs`, the call `kB` that
differs from it only in giving `include_paths` as the single string that is the
`:`-join of `segs` is valid too, resolves the same options and has the same
events about an engine context: the same entry point is called with the same
arguments and options; and a raw string `include_paths` is the include-path
member of the options of every engine call, byte for byte.  How the call with
the raw string ends after its engine call is left out. -/
theorem include_paths_list_or_joined_string (env : Env) (kA kB : List (String × PyObj))
    (segs : List CBuf) (o : sass_options) (pA : IncludePaths)
    (hnul : ∀ s ∈ segs, NUL ∉ s)
    (hA : PyDict_GetItemString kA "include_paths" = some (.seq (segs.map PyObj.bytes)))
    (hB : PyDict_GetItemString kB "include_paths" =
      some (.bytes (List.intercalate [COLON] segs)))
    (hsame : ∀ key, key ≠ "include_paths" →
      PyDict_GetItemString kA key = PyDict_GetItemString kB key)
    (hone : source_keys_present kA = 1)
    (hres : resolved_options kA = some (o, pA)) :
    (∃ pB, resolved_options kB = some (o, pB)) ∧
    context_events (PySass_compile env [] kA).trace =
      context_events (PySass_compile env [] kB).trace ∧
    (∀ (k : List (String × PyObj)) (b : CBuf) (ev : Event) (o1 : sass_options),
      PyDict_GetItemString k "include_paths" = some (.bytes b) →
      ev ∈ (PySass_compile env [] k).trace → ev.options = some o1 → o1.include_paths = b) := by
  have hs := hsame "string" (by decide)
  have hf := hsame "filename" (by decide)
  have hd := hsame "dirname" (by decide)
  have hos := hsame "output_style" (by decide)
  have him := hsame "image_path" (by decide)
  have honeB : source_keys_present kB = 1 := by
    simp only [source_keys_present, ← hs, ← hf, ← hd]
    exact hone
  obtain ⟨k1, k3, h1, h2, h3, h4⟩ := resolved_options_spec kA o pA hres
  rw [hA] at h2
  simp only [include_paths_block, join_bytes, written_of_no_NUL segs hnul, Step.ok.injEq] at h2
  subst h2
  simp only at h3 h4
  obtain ⟨c, hc⟩ := image_path_block_value _ k1 (k1 + 1) _ _ h3
  have hresB : resolved_options kB =
      some (o, ⟨List.intercalate [COLON] segs, .object, [], k1 + 1⟩) := by
    simp only [resolved_options, ← hos, ← him, hB, h1, include_paths_block, hc]
    congr 2
    cases o
    simp only at h4
    subst h4
    rfl
  have hbrA := compile_mode_branch env kA o _ hone hres
  have hbrB := compile_mode_branch env kB o _ honeB hresB
  refine ⟨⟨_, hresB⟩, ?_, ?_⟩
  · rw [hbrA.1, hbrB.1, hs, hf, hd]
  · intro k b ev o1 hk hev ho
    obtain ⟨paths, hr⟩ := options_of_engine_call env [] k ev o1 hev ho
    obtain ⟨k1', -, -, h2', -, h4'⟩ := resolved_options_spec k o1 paths hr
    rw [hk] at h2'
    simp only [include_paths_block, Step.ok.injEq] at h2'
    subst h2'
    exact h4'

/-- A worked pair of calls: `include_paths=["a", "b"]` and `include_paths="a:b"`. -/
theorem include_paths_list_or_joined_string_witness :
    context_events (PySass_compile example_env []
        [("string", .bytes "x".toList),
         ("include_paths", .seq (["a".toList, "b".toList].map PyObj.bytes))]).trace =
      context_events (PySass_compile example_env []
        [("string", .bytes "x".toList),
         ("include_paths", .bytes (List.intercalate [COLON] ["a".toList, "b".toList]))]).trace := by
  have H := include_paths_list_or_joined_string example_env
    [("string", .bytes "x".toList),
     ("include_paths", .seq (["a".toList, "b".toList].map PyObj.bytes))]
    [("string", .bytes "x".toList),
     ("include_paths", .bytes (List.intercalate [COLON] ["a".toList, "b".toList]))]
    ["a".toList, "b".toList] ⟨SASS_STYLE_NESTED, "a:b".toList, ".".toList⟩
    ⟨"a:b".toList, .heap, [.malloc 4], 1⟩ (by decide) rfl rfl
    (by
      intro key hkey
      have h : (key == "include_paths") = false := by simpa using hkey
      simp [PyDict_GetItemString, List.lookup, h])
    (by decide) rfl
  exact H.2.1

/-! ## Sizing of the joined buffer (lines 123-155) -/

/-- C17: for every sequence of strings, with `size = sum(len) + max(0, n-1)`:
the first loop adds up `sum(len)` and the block allocated has `size + 1`
bytes; the copy loop succeeds even on a block of only `size` bytes, so every
byte it writes, of a segment or a `:`, has an index below `size`; it ends at
offset `size`, leaving the last byte of the allocated block unwritten; and the
terminator written at index `size` falls inside the block. -/
theorem join_exact_sizing (segs : List CBuf) :
    size_loop (segs.map PyObj.bytes) 0 0 = .ok (segs.map List.length).sum ∧
    (∃ v, join (segs.map PyObj.bytes) = .ok ⟨v, joined_size segs + 1⟩ ∧
      v.length = joined_size segs) ∧
    copy_loop (segs.map PyObj.bytes) 0 0 (List.replicate (joined_size segs) none) =
      some ((written 0 segs).map some, joined_size segs) ∧
    copy_loop (segs.map PyObj.bytes) 0 0 (List.replicate (joined_size segs + 1) none) =
      some ((written 0 segs).map some ++ [none], joined_size segs) ∧
    Mem.write ((written 0 segs).map some ++ [none]) (joined_size segs) [NUL] =
      some ((written 0 segs ++ [NUL]).map some) := by
  have hlen : (written 0 segs).length = joined_size segs := by
    rw [written_length]; simp [joined_size]
  refine ⟨?_, ⟨written 0 segs, ?_, hlen⟩, ?_, ?_, ?_⟩
  · simpa using size_loop_bytes segs 0 0
  · simpa [joined_size] using join_bytes segs
  · have h := copy_loop_fresh segs 0 [] (joined_size segs) (by omega)
    simpa [hlen] using h
  · have h := copy_loop_fresh segs 0 [] (joined_size segs + 1) (by omega)
    simpa [hlen] using h
  · have h := write_fresh (written 0 segs) [NUL] 1 (by simp)
    rw [hlen] at h
    simpa using h

/-! ## The index of the style lookup (lines 92-109) -/

theorem style_loop_index_le (s : CBuf) (n : Nat) (table : List (CBuf × OutputStyle)) (i : Nat) :
    (style_loop s n table i).1 ≤ i + table.length := by
  induction table generalizing i with
  | nil => simp [style_loop]
  | cons entry rest ih =>
    obtain ⟨label, value⟩ := entry
    simp only [style_loop, List.length_cons]
    split
    · simp
    · have := ih (i + 1)
      omega

/-- C18: with the empty string as `output_style` the loop of lines 95-102 is
skipped, line 104 reads an `i` that nothing has assigned, and the behaviour of
the call is undefined, whatever the environment; for a string that is not
empty the loop assigns `i` and stops with `i` at most 4. -/
theorem empty_output_style_reads_unassigned_index (env : Env) :
    (∀ k, output_style_block (some (.bytes [])) k = .undefined .uninitialised_i) ∧
    (PySass_compile env []
        [("string", .bytes "a".toList), ("output_style", .bytes [])]).ret =
      .undefined .uninitialised_i ∧
    (∀ s : CBuf, (style_loop s s.length PySass_output_style_enum 0).1 ≤ 4) :=
  ⟨fun _ => rfl, rfl, fun s => by
    have := style_loop_index_le s s.length PySass_output_style_enum 0
    simpa [PySass_output_style_enum] using this⟩

/-! ## The last branch (lines 276-279) -/

theorem dispatch_result_assigned (env : Env) (s f d : Option PyObj) (o : sass_options)
    (h : (s.isSome || f.isSome || d.isSome) = true) :
    (dispatch env s f d o).2 ≠ .undefined .uninitialised_result ∧
    ∀ r e, (dispatch env s f d o).2 = .returned r (some e) → e.exc ≠ PyExc_RuntimeError := by
  unfold dispatch
  split
  · split
    · simp only
      split
      · exact ⟨by simp, by intro r e he; simp at he; obtain ⟨-, rfl⟩ := he; simp⟩
      · exact ⟨by simp, by intro r e he; simp at he⟩
    · exact ⟨by simp, by intro r e he; simp at he; obtain ⟨-, rfl⟩ := he; simp⟩
  · split
    · split
      · exact ⟨by simp, by intro r e he; simp at he; obtain ⟨-, rfl⟩ := he; simp⟩
      · simp only
        split
        · exact ⟨by simp, by intro r e he; simp at he; obtain ⟨-, rfl⟩ := he; simp⟩
        · exact ⟨by simp, by intro r e he; simp at he⟩
    · exact ⟨by simp, by intro r e he; simp at he; obtain ⟨-, rfl⟩ := he; simp⟩
  · split
    · refine ⟨by simp, ?_⟩
      intro r e he
      simp only [Ret.returned.injEq, Option.some.injEq] at he
      obtain ⟨-, rfl⟩ := he
      simp only
      split <;> simp
    · simp only
      split
      · exact ⟨by simp, by intro r e he; simp at he; obtain ⟨-, rfl⟩ := he; simp⟩
      · refine ⟨by simp, ?_⟩
        intro r e he
        simp only [Ret.returned.injEq] at he
        obtain ⟨-, he⟩ := he
        split at he
        · simp only [Option.some.injEq] at he
          subst he
          simp
        · cases he
  · simp at h

theorem output_style_block_outcomes (x : Option PyObj) (k : Nat) :
    (∀ e, output_style_block x k = .fail e → e.exc ≠ PyExc_RuntimeError) ∧
    (∀ u, output_style_block x k = .undefined u → u ≠ .uninitialised_result) := by
  unfold output_style_block
  split
  · exact ⟨(by intro e h; cases h), (by intro u h; cases h)⟩
  · exact ⟨(by intro e h; cases h), (by intro u h; cases h)⟩
  · simp only
    split
    · split
      · exact ⟨(by intro e h; cases h; simp), (by intro u h; cases h)⟩
      · exact ⟨(by intro e h; cases h), (by intro u h; cases h)⟩
      · exact ⟨(by intro e h; cases h), (by intro u h; cases h; simp)⟩
    · exact ⟨(by intro e h; cases h), (by intro u h; cases h; simp)⟩
  · exact ⟨(by intro e h; cases h; simp), (by intro u h; cases h)⟩

theorem size_loop_outcomes (items : List PyObj) (i acc : Nat) :
    (∀ e, size_loop items i acc = .fail e → e.exc ≠ PyExc_RuntimeError) ∧
    (∀ u, size_loop items i acc ≠ .undefined u) := by
  induction items generalizing i acc with
  | nil => exact ⟨(by intro e h; cases h), (by intro u h; cases h)⟩
  | cons item rest ih =>
    rw [size_loop]
    split
    · exact ⟨(by intro e h; cases h; simp), (by intro u h; cases h)⟩
    · exact ih (i + 1) _

theorem include_paths_block_outcomes (x : Option PyObj) (k : Nat) :
    (∀ e, include_paths_block x k = .fail e → e.exc ≠ PyExc_RuntimeError) ∧
    (∀ u, include_paths_block x k = .undefined u → u ≠ .uninitialised_result) := by
  unfold include_paths_block
  split
  · exact ⟨(by intro e h; cases h), (by intro u h; cases h)⟩
  · exact ⟨(by intro e h; cases h), (by intro u h; cases h)⟩
  · exact ⟨(by intro e h; cases h), (by intro u h; cases h)⟩
  · rename_i items
    split
    · exact ⟨(by intro e h; cases h), (by intro u h; cases h)⟩
    · rename_i e0 hj
      refine ⟨?_, (by intro u h; cases h)⟩
      intro e h
      cases h
      unfold join at hj
      split at hj
      · rename_i e1 hs
        cases hj
        exact (size_loop_outcomes items 0 0).1 _ hs
      · cases hj
      · simp only at hj
        split at hj
        · cases hj
        · split at hj
          · cases hj
          · split at hj <;> cases hj
    · rename_i u0 hj
      refine ⟨(by intro e h; cases h), ?_⟩
      intro u h
      cases h
      unfold join at hj
      split at hj
      · cases hj
      · rename_i u1 hs
        exact absurd hs ((size_loop_outcomes items 0 0).2 u1)
      · simp only at hj
        split at hj
        · cases hj; simp
        · split at hj
          · cases hj; simp
          · split at hj
            · cases hj; simp
            · cases hj
  · exact ⟨(by intro e h; cases h; simp), (by intro u h; cases h)⟩

theorem image_path_block_outcomes (x : Option PyObj) (k : Nat) :
    (∀ e, image_path_block x k = .fail e → e.exc ≠ PyExc_RuntimeError) ∧
    (∀ u, image_path_block x k ≠ .undefined u) := by
  unfold image_path_block
  split
  · exact ⟨(by intro e h; cases h), (by intro u h; cases h)⟩
  · exact ⟨(by intro e h; cases h), (by intro u h; cases h)⟩
  · exact ⟨(by intro e h; cases h), (by intro u h; cases h)⟩
  · exact ⟨(by intro e h; cases h; simp), (by intro u h; cases h)⟩

theorem error_return_assigned (e : PyErr) (he : e.exc ≠ PyExc_RuntimeError) :
    Ret.returned none (some e) ≠ .undefined .uninitialised_result ∧
    ∀ r e1, Ret.returned none (some e) = .returned r (some e1) → e1.exc ≠ PyExc_RuntimeError := by
  refine ⟨(by simp), ?_⟩
  intro r e1 h
  simp only [Ret.returned.injEq, Option.some.injEq] at h
  obtain ⟨-, rfl⟩ := h
  exact he

theorem undefined_return_assigned (u : Undefined) (hu : u ≠ .uninitialised_result) :
    Ret.undefined u ≠ .undefined .uninitialised_result ∧
    ∀ r e1, Ret.undefined u = .returned r (some e1) → e1.exc ≠ PyExc_RuntimeError := by
  refine ⟨?_, (by intro r e1 h; cases h)⟩
  intro h
  simp only [Ret.undefined.injEq] at h
  exact hu h

/-- No call returns an unassigned `result` or ends with `RuntimeError`. -/
theorem compile_result_assigned (env : Env) (args : List PyObj) (kwds : List (String × PyObj)) :
    (PySass_compile env args kwds).ret ≠ .undefined .uninitialised_result ∧
    ∀ r e, (PySass_compile env args kwds).ret = .returned r (some e) →
      e.exc ≠ PyExc_RuntimeError := by
  unfold PySass_compile
  split
  · exact error_return_assigned _ (by simp)
  split
  · exact error_return_assigned _ (by simp)
  simp only
  split
  · exact error_return_assigned _ (by simp)
  rename_i hkeys
  split
  · exact error_return_assigned _ (by simp)
  have hsome : ((PyDict_GetItemString kwds "string").isSome ||
      (PyDict_GetItemString kwds "filename").isSome ||
      (PyDict_GetItemString kwds "dirname").isSome) = true := by
    cases hs : PyDict_GetItemString kwds "string" <;>
      cases hf : PyDict_GetItemString kwds "filename" <;>
      cases hd : PyDict_GetItemString kwds "dirname" <;>
      simp [hs, hf, hd] at hkeys ⊢
  split
  · rename_i e0 h0
    exact error_return_assigned _ ((output_style_block_outcomes _ _).1 _ h0)
  · rename_i u0 h0
    exact undefined_return_assigned _ ((output_style_block_outcomes _ _).2 _ h0)
  · split
    · rename_i e0 h0
      exact error_return_assigned _ ((include_paths_block_outcomes _ _).1 _ h0)
    · rename_i u0 h0
      exact undefined_return_assigned _ ((include_paths_block_outcomes _ _).2 _ h0)
    · split
      · rename_i e0 h0
        exact error_return_assigned _ ((image_path_block_outcomes _ _).1 _ h0)
      · rename_i u0 h0
        exact absurd h0 ((image_path_block_outcomes _ _).2 u0)
      · simp only
        rcases finalize_ret_cases (PyDict_GetItemString kwds "include_paths") _
          (dispatch env (PyDict_GetItemString kwds "string")
            (PyDict_GetItemString kwds "filename") (PyDict_GetItemString kwds "dirname")
            _).2 with hfin | hfin
        · rw [hfin]
          exact dispatch_result_assigned env _ _ _ _ hsome
        · rw [hfin]
          exact undefined_return_assigned _ (by simp)

/-- C19: no call ends in the last branch.  For every environment and input the
call does not return an unassigned `result`, which only the branch of lines
276-279 would do, and no call that returns with an error set has
`RuntimeError` as its exception; and whenever at least one source key is
present, as the checks of lines 70-83 require, the dispatch takes one of the
three mode branches. -/
theorem last_branch_unreachable (env : Env) (args : List PyObj) (kwds : List (String × PyObj)) :
    (PySass_compile env args kwds).ret ≠ .undefined .uninitialised_result ∧
    (∀ r e, (PySass_compile env args kwds).ret = .returned r (some e) →
      e.exc ≠ PyExc_RuntimeError) ∧
    (∀ s f d o, (s.isSome || f.isSome || d.isSome) = true →
      (dispatch env s f d o).2 ≠ .undefined .uninitialised_result) :=
  ⟨(compile_result_assigned env args kwds).1, (compile_result_assigned env args kwds).2,
   fun s f d o h => (dispatch_result_assigned env s f d o h).1⟩

/-- Two worked inputs: a call with `string=5`, and a dispatch with only
`dirname` present. -/
theorem last_branch_unreachable_witness :
    PyExc_TypeError ≠ PyExc_RuntimeError ∧
    (dispatch example_env none none (some (.int 5)) default_options).2 ≠
      .undefined .uninitialised_result :=
  ⟨(last_branch_unreachable example_env [] [("string", .int 5)]).2.1 none
      ⟨PyExc_TypeError, .text "string must be a string"⟩ rfl,
   (last_branch_unreachable example_env [] []).2.2 none none (some (.int 5)) default_options rfl⟩

/-! ## Unrecognised keywords (lines 58-87) -/

theorem lookup_unrecognised (k : List (String × PyObj)) (u : String) (v : PyObj) (key : String)
    (h : key ≠ u) :
    PyDict_GetItemString ((u, v) :: k) key = PyDict_GetItemString k key := by
  have hb : (key == u) = false := by simpa using h
  simp [PyDict_GetItemString, List.lookup, hb]

/-- C20: for every keyword dictionary `k`, every key `u` that is none of the
six keywords the function looks up and every value `v`, the call on `k`
extended with `u` has the same trace (engine calls and options included) and
ends the same way as the call on `k`; and the counter `expected_kwds` changes
nothing but itself in what the three blocks of lines 89-174 compute. -/
theorem unrecognised_keyword_ignored (env : Env) (args : List PyObj)
    (k : List (String × PyObj)) (u : String) (v : PyObj) (hu : u ∉ known_keywords) :
    PySass_compile env args ((u, v) :: k) = PySass_compile env args k ∧
    (∀ x c c', (output_style_block x c).map Prod.fst = (output_style_block x c').map Prod.fst) ∧
    (∀ x c c', (include_paths_block x c).map IncludePaths.without_count =
      (include_paths_block x c').map IncludePaths.without_count) ∧
    (∀ x c c', (image_path_block x c).map Prod.fst = (image_path_block x c').map Prod.fst) := by
  refine ⟨?_, output_style_block_count, include_paths_block_count, image_path_block_count⟩
  simp only [known_keywords, List.mem_cons, List.mem_singleton, List.not_mem_nil, or_false,
    not_or] at hu
  obtain ⟨h1, h2, h3, h4, h5, h6⟩ := hu
  have e1 := lookup_unrecognised k u v "string" (Ne.symm h1)
  have e2 := lookup_unrecognised k u v "filename" (Ne.symm h2)
  have e3 := lookup_unrecognised k u v "dirname" (Ne.symm h3)
  have e4 := lookup_unrecognised k u v "output_style" (Ne.symm h4)
  have e5 := lookup_unrecognised k u v "include_paths" (Ne.symm h5)
  have e6 := lookup_unrecognised k u v "image_path" (Ne.symm h6)
  cases k with
  | nil =>
    simp only [PySass_compile, e1, e2, e3]
    simp [PyDict_GetItemString]
  | cons kv rest =>
    simp only [PySass_compile, e1, e2, e3, e4, e5, e6]
    simp

/-- A worked pair of calls: a string compiled with and without the keyword
`source_comments`. -/
theorem unrecognised_keyword_ignored_witness :
    PySass_compile example_env []
        [("source_comments", .int 1), ("string", .bytes "a".toList)] =
      PySass_compile example_env [] [("string", .bytes "a".toList)] :=
  (unrecognised_keyword_ignored example_env [] [("string", .bytes "a".toList)]
    "source_comments" (.int 1) (by decide)).1

end Sass
